import Mathlib

/-!
# axon: `internal/common/app.go`

A shallow embedding of `InitApp` and `App.RunServerWithGracefulShutdown`.

* Object identities (`*zap.Logger`, `*httprouter.Router`, `*prometheus.Registry`)
  are references into a heap (`World`), so "the very same registry" is equality
  of references.
* `RunServerWithGracefulShutdown` is a two-thread machine (calling thread and the
  spawned goroutine) driven by a schedule; the operating system delivering a
  signal is a third kind of action.  The results of the two blocking library
  calls, `server.ListenAndServe()` and `server.Shutdown(ctx)`, are inputs of a
  run (`Config`).
* Every effect is recorded as an `Event`, tagged with the thread that performed
  it.
-/

namespace Axon

/-! ## Values -/

/-- Go `error` values that matter to the code: the sentinel `http.ErrServerClosed`
(compared by identity at line 65) and every other error.  The Go `error`
interface itself is `Option GoError`, `none` being `nil`. -/
inductive GoError where
  | ErrServerClosed
  | other (msg : String)
  deriving DecidableEq, Repr

/-- Operating-system signals; line 60 subscribes to `SIGINT` and `SIGTERM`. -/
inductive Signal where
  | SIGINT
  | SIGTERM
  | other (n : Nat)
  deriving DecidableEq, Repr

/-- Reference to a `*zap.Logger`. -/
abbrev LoggerRef := Nat
/-- Reference to a `*httprouter.Router`. -/
abbrev RouterRef := Nat
/-- Reference to a `*prometheus.Registry`. -/
abbrev RegistryRef := Nat

/-- The struct `App` (lines 20-24). -/
structure App where
  Logger : LoggerRef
  Router : RouterRef
  PromRegistry : RegistryRef
  deriving DecidableEq, Repr

/-- The two severities the code logs at. -/
inductive Level where
  | Info
  | Error
  deriving DecidableEq, Repr

/-- Structured log fields: `zap.Uint16(key, v)` and `zap.Error(err)`. -/
inductive Field where
  | Uint16 (key : String) (v : Nat)
  | Error (err : GoError)
  deriving DecidableEq, Repr

/-- A `context.Context`: the background context or one derived from a parent
with a timeout in nanoseconds. -/
inductive Context where
  | Background
  | WithTimeout (parent : Context) (d : Nat)
  deriving DecidableEq, Repr

/-- The collectors line 36-37 construct. -/
inductive Collector where
  | GoCollector
  | ProcessCollector
  deriving DecidableEq, Repr

/-- An `http.Handler` as far as this file builds one:
`promhttp.HandlerFor(registry, opts)` with empty options. -/
inductive Handler where
  | PromHandlerFor (reg : RegistryRef)
  deriving DecidableEq, Repr

/-- One entry of a router's routing table. -/
structure Route where
  method : String
  path : String
  handler : Handler
  deriving DecidableEq, Repr

/-- The `http.Server` literal of lines 54-57. -/
structure Server where
  Addr : String
  Handler : RouterRef
  deriving DecidableEq, Repr

/-! ## `time` constants (`time.Duration` counts nanoseconds in an int64) -/

def Nanosecond : Nat := 1
def Microsecond : Nat := 1000 * Nanosecond
def Millisecond : Nat := 1000 * Microsecond
def Second : Nat := 1000 * Millisecond

/-! ## `fmt.Sprintf(":%d", port)` -/

/-- The byte `'0' + d`. -/
def digitChar (d : Nat) : Char := Char.ofNat (48 + d)

/-- Decimal digits of `u`, most significant first, written the way `fmt` does:
while `u >= 10` emit `'0' + u % 10` and divide; then emit the last digit.
`fuel` bounds the loop; `fmtUint` supplies enough. -/
def fmtUintAux : Nat → Nat → List Char
  | 0, u => [digitChar (u % 10)]
  | fuel + 1, u =>
    if u < 10 then [digitChar u] else fmtUintAux fuel (u / 10) ++ [digitChar (u % 10)]

/-- The verb `%d` applied to an unsigned integer. -/
def fmtUint (u : Nat) : List Char := fmtUintAux u u

/-- The call `fmt.Sprintf(":%d", port)`. -/
def sprintfAddr (port : Nat) : String := String.mk (':' :: fmtUint port)

/-- Reads a decimal numeral: `none` on the empty text or on a non-digit. -/
def parseDigits : List Char → Option Nat → Option Nat
  | [], acc => acc
  | c :: cs, acc =>
    if 48 ≤ c.toNat ∧ c.toNat ≤ 57 then
      parseDigits cs (some (acc.getD 0 * 10 + (c.toNat - 48)))
    else none

/-- The natural number written by a text, if it is a decimal numeral. -/
def parseNat (cs : List Char) : Option Nat := parseDigits cs none

/-! ## Effects -/

/-- The threads of a run of `RunServerWithGracefulShutdown`. -/
inductive Thread where
  | caller
  | goroutine
  deriving DecidableEq, Repr

/-- Every effect the two functions perform on their collaborators. -/
inductive Event where
  /-- Call of `InitLogger()` (line 27). -/
  | InitLogger
  /-- Call of `log.Fatal("Failed to initialize logger:", err)` (line 30); exits the process. -/
  | LogFatal (msg : String) (err : GoError)
  /-- Call of `logger.Sync()`. -/
  | Sync (lg : LoggerRef)
  /-- Call of `prometheus.NewRegistry()` returning `r`. -/
  | NewRegistry (r : RegistryRef)
  /-- Call of `registry.MustRegister(c)`. -/
  | MustRegister (r : RegistryRef) (c : Collector)
  /-- Call of `httprouter.New()` returning `rt`. -/
  | NewRouter (rt : RouterRef)
  /-- Call of `router.Handler(method, path, h)`. -/
  | RouterHandler (rt : RouterRef) (method path : String) (h : Handler)
  /-- A Go panic unwinding out of the function. -/
  | Panic
  /-- Return of `InitApp`. -/
  | ReturnApp (a : App)
  /-- Construction of the `http.Server` value (lines 54-57). -/
  | NewServer (srv : Server)
  /-- Creation of the channel, `make(chan os.Signal, cap)` (line 59). -/
  | MakeChan (cap : Nat)
  /-- Call of `signal.Notify(quit, sigs...)` (line 60). -/
  | Notify (sigs : List Signal)
  /-- The `go` statement (line 62). -/
  | Go
  /-- A log record written through logger `lg`. -/
  | Log (lg : LoggerRef) (lvl : Level) (msg : String) (fields : List Field)
  /-- Call of `server.ListenAndServe()` (line 64). -/
  | ListenAndServe (srv : Server)
  /-- Return of `server.ListenAndServe()` with `err`. -/
  | Served (err : Option GoError)
  /-- The goroutine's function returns. -/
  | GoroutineEnd
  /-- Receipt of `sig` by `<-quit` (line 73). -/
  | Recv (sig : Signal)
  /-- Call of `context.WithTimeout(parent, d)` (line 76). -/
  | WithTimeout (parent : Context) (d : Nat)
  /-- Call of `server.Shutdown(ctx)` (line 78). -/
  | Shutdown (srv : Server) (ctx : Context)
  /-- The deferred `cancel()` of the context `ctx` (line 77). -/
  | Cancel (ctx : Context)
  /-- Return of `RunServerWithGracefulShutdown` with `err`. -/
  | Return (err : Option GoError)
  deriving DecidableEq, Repr

/-! ## `InitApp` -/

/-- The heap `InitApp` allocates in: the collectors of every registry and the
routing table of every router, a reference being an index.  Registries and
routers that exist before the call (the default registry, say) are entries of
the initial world. -/
structure World where
  registries : List (List Collector)
  routers : List (List Route)
  deriving DecidableEq, Repr

/-- How a call of `InitApp` ends. -/
inductive InitOutcome where
  /-- Normal return. -/
  | returned (a : App)
  /-- The call of `log.Fatal` ended the process. -/
  | exited
  /-- A `Must...` call panicked. -/
  | panicked
  deriving DecidableEq, Repr

/-- Model of `Registry.Register`: refuses a collector that is already registered,
otherwise appends it.  `none` is the error `MustRegister` panics on. -/
def World.register (w : World) (r : RegistryRef) (c : Collector) : Option World :=
  match w.registries.get? r with
  | none => none
  | some cs => if c ∈ cs then none else some { w with registries := w.registries.set r (cs ++ [c]) }

/-- Model of `Router.Handler`: panics (`none`) on an empty method, on a
path that does not begin with `/`, and on a route registered twice; otherwise
adds the route. -/
def World.handle (w : World) (rt : RouterRef) (method path : String) (h : Handler) : Option World :=
  match w.routers.get? rt with
  | none => none
  | some rs =>
    if method = "" then none
    else if path.data.head? ≠ some '/' then none
    else if rs.any (fun r => r.method = method ∧ r.path = path) then none
    else some { w with routers := w.routers.set rt (rs ++ [⟨method, path, h⟩]) }

/-- Function `InitApp` (lines 26-50).  `initLogger` is the result of the call
`InitLogger()`, a function of package `common` defined in another file.
Returns the final heap, the effects in order and the outcome.  The deferred
`logger.Sync()` of line 33 runs when the function returns or panics, not when
`log.Fatal` exits the process. -/
def InitApp (initLogger : Except GoError LoggerRef) (w : World) :
    World × List Event × InitOutcome :=
  match initLogger with
  | .error err =>
    (w, [.InitLogger, .LogFatal "Failed to initialize logger:" err], .exited)
  | .ok logger =>
    let t0 : List Event := [.InitLogger]
    -- registry := prometheus.NewRegistry()
    let registry : RegistryRef := w.registries.length
    let w1 : World := { w with registries := w.registries ++ [[]] }
    let t1 := t0 ++ [.NewRegistry registry]
    -- registry.MustRegister(collectors.NewGoCollector())
    let t2 := t1 ++ [.MustRegister registry .GoCollector]
    match w1.register registry .GoCollector with
    | none => (w1, t2 ++ [.Sync logger, .Panic], .panicked)
    | some w2 =>
    -- registry.MustRegister(collectors.NewProcessCollector(...))
    let t3 := t2 ++ [.MustRegister registry .ProcessCollector]
    match w2.register registry .ProcessCollector with
    | none => (w2, t3 ++ [.Sync logger, .Panic], .panicked)
    | some w3 =>
    -- router := httprouter.New()
    let router : RouterRef := w3.routers.length
    let w4 : World := { w3 with routers := w3.routers ++ [[]] }
    let t4 := t3 ++ [.NewRouter router]
    -- router.Handler("GET", "/metrics", promhttp.HandlerFor(registry, ...))
    let h : Handler := .PromHandlerFor registry
    let t5 := t4 ++ [.RouterHandler router "GET" "/metrics" h]
    match w4.handle router "GET" "/metrics" h with
    | none => (w4, t5 ++ [.Sync logger, .Panic], .panicked)
    | some w5 =>
    let app : App := { Logger := logger, Router := router, PromRegistry := registry }
    (w5, t5 ++ [.Sync logger, .ReturnApp app], .returned app)

/-- The exact-match lookup a router does for a static path. -/
def World.lookup (w : World) (rt : RouterRef) (method path : String) : Option Handler :=
  ((w.routers.getD rt []).find? (fun r => r.method = method ∧ r.path = path)).map Route.handler

/-- What a handler answers from: `promhttp.HandlerFor(reg, _)` gathers from the
collectors registered with `reg` at the time of the request. -/
def World.gatherFrom (w : World) : Handler → List Collector
  | .PromHandlerFor reg => w.registries.getD reg []

/-- The collectors a request `method path` on router `rt` is answered from;
`none` when no route matches. -/
def World.serve (w : World) (rt : RouterRef) (method path : String) : Option (List Collector) :=
  (w.lookup rt method path).map w.gatherFrom

/-! ## `RunServerWithGracefulShutdown` -/

/-- The inputs of one run: the receiver `app`, the argument `port` (a `uint16`),
and what the two blocking library calls return when they do. -/
structure Config where
  app : App
  port : Nat
  /-- What `server.ListenAndServe()` returns in the goroutine. -/
  serveResult : Option GoError
  /-- What `server.Shutdown(ctx)` returns on the calling thread. -/
  shutdownResult : Option GoError
  deriving DecidableEq, Repr

/-- The value `server` of lines 54-57. -/
def Config.server (cfg : Config) : Server :=
  { Addr := sprintfAddr cfg.port, Handler := cfg.app.Router }

/-- The duration `5*time.Second` of line 76. -/
def shutdownTimeout : Nat := 5 * Second

/-- The value `ctx` of line 76. -/
def shutdownCtx : Context := .WithTimeout .Background shutdownTimeout

/-- Program points of the calling thread; each names the statement executed next. -/
inductive CallerPc where
  /-- Lines 54-57. -/
  | newServer
  /-- Line 59. -/
  | makeChan
  /-- Line 60. -/
  | notify
  /-- Line 62. -/
  | spawn
  /-- Line 73, where the thread blocks. -/
  | waitQuit
  /-- Line 74. -/
  | logShutting
  /-- Line 76. -/
  | withTimeout
  /-- Line 78, the call. -/
  | shutdown
  /-- Line 78, the test of the value `err` the call returned. -/
  | testErr (err : Option GoError)
  /-- Line 79. -/
  | logForced (err : GoError)
  /-- Line 83. -/
  | logGraceful
  /-- Lines 80 and 84: the return value is set, the deferred `cancel()` runs next. -/
  | deferred (ret : Option GoError)
  /-- The function is about to hand `ret` to its caller. -/
  | returning (ret : Option GoError)
  /-- The function has returned `ret`. -/
  | returned (ret : Option GoError)
  deriving DecidableEq, Repr

/-- Program points of the goroutine of lines 62-71. -/
inductive GoroutinePc where
  /-- The `go` statement has not run yet. -/
  | notSpawned
  /-- Line 63. -/
  | logStart
  /-- Line 64, the call. -/
  | serve
  /-- Line 64, blocked inside `ListenAndServe`. -/
  | serving
  /-- Lines 64-65, the tests of the value `err` the call returned. -/
  | testErr (err : Option GoError)
  /-- Line 67. -/
  | logFailed (err : GoError)
  /-- Line 68 and the end of the function body. -/
  | ending
  /-- The goroutine has finished. -/
  | finished
  deriving DecidableEq, Repr

/-- The state of a run. -/
structure State where
  cpc : CallerPc
  gpc : GoroutinePc
  /-- Capacity of the channel `quit`; 0 until it is made. -/
  quitCap : Nat
  /-- Buffer of the channel `quit`. -/
  quit : List Signal
  /-- Signals the runtime relays to `quit`. -/
  notified : List Signal
  /-- Every effect so far, oldest first. -/
  trace : List (Thread × Event)
  deriving DecidableEq, Repr

/-- The state when the function is entered. -/
def State.init : State :=
  { cpc := .newServer, gpc := .notSpawned, quitCap := 0, quit := [], notified := [], trace := [] }

/-- What the scheduler and the environment can do next. -/
inductive Action where
  /-- The calling thread runs one statement. -/
  | caller
  /-- The goroutine runs one statement. -/
  | goroutine
  /-- The operating system delivers `sig` to the process. -/
  | signal (sig : Signal)
  deriving DecidableEq, Repr

/-- Records the effect `e` of thread `t`. -/
def State.emit (s : State) (t : Thread) (e : Event) : State :=
  { s with trace := s.trace ++ [(t, e)] }

/-- One statement of the calling thread (lines 54-60, 73-84).  At line 73 the
thread does not move while `quit` is empty. -/
def stepCaller (cfg : Config) (s : State) : State :=
  match s.cpc with
  | .newServer => { s.emit .caller (.NewServer cfg.server) with cpc := .makeChan }
  | .makeChan => { s.emit .caller (.MakeChan 1) with cpc := .notify, quitCap := 1 }
  | .notify =>
    { s.emit .caller (.Notify [.SIGINT, .SIGTERM]) with
      cpc := .spawn, notified := [.SIGINT, .SIGTERM] }
  | .spawn => { s.emit .caller .Go with cpc := .waitQuit, gpc := .logStart }
  | .waitQuit =>
    match s.quit with
    | [] => s
    | sig :: rest => { s.emit .caller (.Recv sig) with cpc := .logShutting, quit := rest }
  | .logShutting =>
    { s.emit .caller (.Log cfg.app.Logger .Info "Shutting down server..." []) with
      cpc := .withTimeout }
  | .withTimeout =>
    { s.emit .caller (.WithTimeout .Background (5 * Second)) with cpc := .shutdown }
  | .shutdown =>
    { s.emit .caller (.Shutdown cfg.server shutdownCtx) with cpc := .testErr cfg.shutdownResult }
  | .testErr err =>
    match err with
    | some e => { s with cpc := .logForced e }
    | none => { s with cpc := .logGraceful }
  | .logForced e =>
    { s.emit .caller (.Log cfg.app.Logger .Error "Server forced to shutdown" [.Error e]) with
      cpc := .deferred (some e) }
  | .logGraceful =>
    { s.emit .caller (.Log cfg.app.Logger .Info "Server exited gracefully" []) with
      cpc := .deferred none }
  | .deferred ret => { s.emit .caller (.Cancel shutdownCtx) with cpc := .returning ret }
  | .returning ret => { s.emit .caller (.Return ret) with cpc := .returned ret }
  | .returned _ => s

/-- One statement of the goroutine (lines 62-71).  `ListenAndServe` is called
once; the step out of `serving` is its return. -/
def stepGoroutine (cfg : Config) (s : State) : State :=
  match s.gpc with
  | .notSpawned => s
  | .logStart =>
    { s.emit .goroutine
        (.Log cfg.app.Logger .Info "Starting server" [.Uint16 "port" cfg.port]) with
      gpc := .serve }
  | .serve => { s.emit .goroutine (.ListenAndServe cfg.server) with gpc := .serving }
  | .serving => { s.emit .goroutine (.Served cfg.serveResult) with gpc := .testErr cfg.serveResult }
  | .testErr err =>
    match err with
    | some e => if e ≠ .ErrServerClosed then { s with gpc := .logFailed e } else { s with gpc := .ending }
    | none => { s with gpc := .ending }
  | .logFailed e =>
    { s.emit .goroutine (.Log cfg.app.Logger .Error "Server failed" [.Error e]) with
      gpc := .ending }
  | .ending => { s.emit .goroutine .GoroutineEnd with gpc := .finished }
  | .finished => s

/-- Delivery of a signal: the runtime relays a subscribed signal to `quit`
without blocking, dropping it when the buffer is full. -/
def deliver (sig : Signal) (s : State) : State :=
  if sig ∈ s.notified ∧ s.quit.length < s.quitCap then { s with quit := s.quit ++ [sig] } else s

/-- One step of the run. -/
def step (cfg : Config) (s : State) : Action → State
  | .caller => stepCaller cfg s
  | .goroutine => stepGoroutine cfg s
  | .signal sig => deliver sig s

/-- The state after a schedule, from `s`. -/
def runFrom (cfg : Config) (s : State) (sched : List Action) : State :=
  sched.foldl (step cfg) s

/-- Function `RunServerWithGracefulShutdown` run under a schedule. -/
def RunServerWithGracefulShutdown (cfg : Config) (sched : List Action) : State :=
  runFrom cfg State.init sched

/-- The value the function has returned, if it has. -/
def State.result (s : State) : Option (Option GoError) :=
  match s.cpc with
  | .returned ret => some ret
  | _ => none

/-- The effects of thread `t`, in order. -/
def State.eventsOf (s : State) (t : Thread) : List Event :=
  (s.trace.filter (fun p => p.1 = t)).map Prod.snd

/-- Every effect of a run, of either thread, in order. -/
def State.events (s : State) : List Event := s.trace.map Prod.snd

/-- A log record. -/
def Event.isLog : Event → Bool
  | .Log _ _ _ _ => true
  | _ => false

/-- The log records written, by either thread, in order. -/
def State.logRecords (s : State) : List Event := s.events.filter Event.isLog

/-! ## What each thread has done at each program point -/

/-- Effects of lines 54-62 on the calling thread. -/
def callerSetup (cfg : Config) : List Event :=
  [.NewServer cfg.server, .MakeChan 1, .Notify [.SIGINT, .SIGTERM], .Go]

/-- Effects of lines 73-78 on the calling thread, `sig` being the value received. -/
def callerShut (cfg : Config) (sig : Signal) : List Event :=
  [.Recv sig, .Log cfg.app.Logger .Info "Shutting down server..." [],
   .WithTimeout .Background (5 * Second), .Shutdown cfg.server shutdownCtx]

/-- The outcome record of lines 79 and 83 for a result of `Shutdown`. -/
def outcomeRecord (cfg : Config) : Option GoError → Event
  | some e => .Log cfg.app.Logger .Error "Server forced to shutdown" [.Error e]
  | none => .Log cfg.app.Logger .Info "Server exited gracefully" []

/-- The effects the calling thread has performed when it stands at a program point. -/
def callerEvents (cfg : Config) (sig : Signal) : CallerPc → List Event
  | .newServer => []
  | .makeChan => (callerSetup cfg).take 1
  | .notify => (callerSetup cfg).take 2
  | .spawn => (callerSetup cfg).take 3
  | .waitQuit => callerSetup cfg
  | .logShutting => callerSetup cfg ++ (callerShut cfg sig).take 1
  | .withTimeout => callerSetup cfg ++ (callerShut cfg sig).take 2
  | .shutdown => callerSetup cfg ++ (callerShut cfg sig).take 3
  | .testErr _ => callerSetup cfg ++ callerShut cfg sig
  | .logForced _ => callerSetup cfg ++ callerShut cfg sig
  | .logGraceful => callerSetup cfg ++ callerShut cfg sig
  | .deferred _ =>
    callerSetup cfg ++ callerShut cfg sig ++ [outcomeRecord cfg cfg.shutdownResult]
  | .returning _ =>
    callerSetup cfg ++ callerShut cfg sig ++
      [outcomeRecord cfg cfg.shutdownResult, .Cancel shutdownCtx]
  | .returned _ =>
    callerSetup cfg ++ callerShut cfg sig ++
      [outcomeRecord cfg cfg.shutdownResult, .Cancel shutdownCtx, .Return cfg.shutdownResult]

/-- The values the calling thread's program point carries come from `Shutdown`. -/
def callerData (cfg : Config) : CallerPc → Prop
  | .testErr e => e = cfg.shutdownResult
  | .logForced e => cfg.shutdownResult = some e
  | .logGraceful => cfg.shutdownResult = none
  | .deferred r => r = cfg.shutdownResult
  | .returning r => r = cfg.shutdownResult
  | .returned r => r = cfg.shutdownResult
  | _ => True

/-- The record of line 67, present exactly for a failure other than the
intentional stop. -/
def failureRecords (cfg : Config) : List Event :=
  match cfg.serveResult with
  | some e => if e ≠ .ErrServerClosed then [.Log cfg.app.Logger .Error "Server failed" [.Error e]] else []
  | none => []

/-- Effects of lines 63-64 in the goroutine. -/
def goroutineServe (cfg : Config) : List Event :=
  [.Log cfg.app.Logger .Info "Starting server" [.Uint16 "port" cfg.port],
   .ListenAndServe cfg.server, .Served cfg.serveResult]

/-- The effects the goroutine has performed when it stands at a program point. -/
def goroutineEvents (cfg : Config) : GoroutinePc → List Event
  | .notSpawned => []
  | .logStart => []
  | .serve => (goroutineServe cfg).take 1
  | .serving => (goroutineServe cfg).take 2
  | .testErr _ => goroutineServe cfg
  | .logFailed _ => goroutineServe cfg
  | .ending => goroutineServe cfg ++ failureRecords cfg
  | .finished => goroutineServe cfg ++ failureRecords cfg ++ [.GoroutineEnd]

/-- The values the goroutine's program point carries come from `ListenAndServe`. -/
def goroutineData (cfg : Config) : GoroutinePc → Prop
  | .testErr e => e = cfg.serveResult
  | .logFailed e => cfg.serveResult = some e ∧ e ≠ .ErrServerClosed
  | .ending => True
  | _ => True

/-- Program points of the calling thread up to and including the `go` statement. -/
def CallerPc.beforeGo : CallerPc → Bool
  | .newServer => true
  | .makeChan => true
  | .notify => true
  | .spawn => true
  | _ => false

/-- The invariant of a run: each thread's effects are those of its program
point, and the goroutine does not exist before the `go` statement. -/
structure Inv (cfg : Config) (s : State) : Prop where
  caller : ∃ sig, s.eventsOf .caller = callerEvents cfg sig s.cpc
  callerData : callerData cfg s.cpc
  goroutine : s.eventsOf .goroutine = goroutineEvents cfg s.gpc
  goroutineData : goroutineData cfg s.gpc
  notSpawned : s.cpc.beforeGo = true → s.gpc = .notSpawned


/-- Program points of the calling thread at which no signal has been received yet. -/
def CallerPc.beforeRecv : CallerPc → Bool
  | .newServer => true
  | .makeChan => true
  | .notify => true
  | .spawn => true
  | .waitQuit => true
  | _ => false

/-- A configuration whose listener fails to bind and whose shutdown is clean. -/
def cfgBindFails : Config :=
  { app := ⟨1, 2, 3⟩, port := 8080,
    serveResult := some (.other "listen tcp :8080: bind: address already in use"),
    shutdownResult := none }

/-- A configuration whose shutdown exceeds the deadline. -/
def cfgForced : Config :=
  { app := ⟨1, 2, 3⟩, port := 0, serveResult := some .ErrServerClosed,
    shutdownResult := some (.other "context deadline exceeded") }

/-- A schedule that runs both threads to their end: the calling thread up to
line 73, the goroutine to its end, a `SIGTERM`, and the rest of the calling thread. -/
def fullSchedule : List Action :=
  List.replicate 4 .caller ++ List.replicate 6 .goroutine ++ [.signal .SIGTERM] ++
    List.replicate 8 .caller

/-- A schedule without any signal: the calling thread runs until it blocks and
the goroutine runs to its end. -/
def scheduleWithoutSignal : List Action :=
  List.replicate 6 .caller ++ List.replicate 6 .goroutine ++ List.replicate 6 .caller

/-- What the calling thread can observe of a state: its program point, the
channel and its own effects. -/
def State.callerView (s : State) : CallerPc × Nat × List Signal × List Signal × List Event :=
  (s.cpc, s.quitCap, s.quit, s.notified, s.eventsOf .caller)

/-- The configuration with another result of `ListenAndServe`. -/
def Config.withServeResult (cfg : Config) (x : Option GoError) : Config :=
  { cfg with serveResult := x }

/-- Whether an action is the delivery of a signal. -/
def Action.isSignal : Action → Bool
  | .signal _ => true
  | _ => false

/-- The Info record "Server exited gracefully" of line 83. -/
def Event.isGraceful : Event → Bool
  | .Log _ .Info msg _ => msg == "Server exited gracefully"
  | _ => false

/-- The Error record "Server forced to shutdown" of line 79. -/
def Event.isForced : Event → Bool
  | .Log _ .Error msg _ => msg == "Server forced to shutdown"
  | _ => false

/-- The receipt of a value from the channel `quit`. -/
def Event.isRecv : Event → Bool
  | .Recv _ => true
  | _ => false

/-- The call `server.Shutdown(ctx)`. -/
def Event.isShutdownCall : Event → Bool
  | .Shutdown _ _ => true
  | _ => false

/-- The effects that belong to the shutdown sequence and the return: the record
"Shutting down server...", the call `server.Shutdown(ctx)`, and the function's return. -/
def Event.isShutdownInit : Event → Bool
  | .Log _ _ msg _ => msg == "Shutting down server..."
  | .Shutdown _ _ => true
  | .Return _ => true
  | _ => false

/-- The lifecycle of the server handle. -/
inductive Phase where
  | Idle
  | Starting
  | Running
  | ShuttingDown
  | Stopped
  | ForcedStopped
  deriving DecidableEq, Repr

/-- The lifecycle phase the calling thread's program point stands for: `Idle`
before the server value exists, `Starting` until the goroutine is spawned,
`Running` while blocked at line 73, `ShuttingDown` from the receipt of the
signal until `Shutdown` has returned, then `Stopped` or `ForcedStopped`
according to what it returned. -/
def CallerPc.phase : CallerPc → Phase
  | .newServer => .Idle
  | .makeChan => .Starting
  | .notify => .Starting
  | .spawn => .Starting
  | .waitQuit => .Running
  | .logShutting => .ShuttingDown
  | .withTimeout => .ShuttingDown
  | .shutdown => .ShuttingDown
  | .testErr none => .Stopped
  | .testErr (some _) => .ForcedStopped
  | .logForced _ => .ForcedStopped
  | .logGraceful => .Stopped
  | .deferred none => .Stopped
  | .deferred (some _) => .ForcedStopped
  | .returning none => .Stopped
  | .returning (some _) => .ForcedStopped
  | .returned none => .Stopped
  | .returned (some _) => .ForcedStopped

/-- Position of a phase in the lifecycle; the two terminal phases share the last. -/
def Phase.rank : Phase → Nat
  | .Idle => 0
  | .Starting => 1
  | .Running => 2
  | .ShuttingDown => 3
  | .Stopped => 4
  | .ForcedStopped => 4

/-- The whole sequence of effects of the calling thread in a run that returns. -/
def callerScript (cfg : Config) (sig : Signal) : List Event :=
  callerSetup cfg ++ callerShut cfg sig ++
    [outcomeRecord cfg cfg.shutdownResult, .Cancel shutdownCtx, .Return cfg.shutdownResult]

/-- How many effects the calling thread has performed at a program point. -/
def CallerPc.done : CallerPc → Nat
  | .newServer => 0
  | .makeChan => 1
  | .notify => 2
  | .spawn => 3
  | .waitQuit => 4
  | .logShutting => 5
  | .withTimeout => 6
  | .shutdown => 7
  | .testErr _ => 8
  | .logForced _ => 8
  | .logGraceful => 8
  | .deferred _ => 9
  | .returning _ => 10
  | .returned _ => 11

/-- A call of `context.WithTimeout`. -/
def Event.isWithTimeout : Event → Bool
  | .WithTimeout _ _ => true
  | _ => false

/-- A call of a context's cancel function. -/
def Event.isCancel : Event → Bool
  | .Cancel _ => true
  | _ => false

/-- A world in which the default registry (reference 0) already holds both
collectors and a router (reference 0) already has a route. -/
def worldWithDefaults : World :=
  { registries := [[.GoCollector, .ProcessCollector]],
    routers := [[⟨"GET", "/healthz", .PromHandlerFor 0⟩]] }

/-- A call of `logger.Sync()`. -/
def Event.isSync : Event → Bool
  | .Sync _ => true
  | _ => false

/-- A call of `server.ListenAndServe()`. -/
def Event.isListenAndServe : Event → Bool
  | .ListenAndServe _ => true
  | _ => false

/-- A log record at error severity. -/
def Event.isErrorRecord : Event → Bool
  | .Log _ .Error _ _ => true
  | _ => false

/-- Program points of the goroutine after `ListenAndServe` has returned. -/
def GoroutinePc.afterServe : GoroutinePc → Bool
  | .testErr _ => true
  | .logFailed _ => true
  | .ending => true
  | .finished => true
  | _ => false

/-- A decimal digit, `'0'` to `'9'`. -/
def isDigitChar (c : Char) : Prop := 48 ≤ c.toNat ∧ c.toNat ≤ 57

instance (c : Char) : Decidable (isDigitChar c) := by
  unfold isDigitChar
  infer_instance

/-- The smallest port value, outside the range 1-65535 the interface documents. -/
def cfgPortZero : Config :=
  { app := ⟨1, 2, 3⟩, port := 0, serveResult := some .ErrServerClosed, shutdownResult := none }

/-! ## The invariant holds in every run -/

theorem inv_init (cfg : Config) : Inv cfg State.init :=
  ⟨⟨.SIGINT, rfl⟩, trivial, rfl, trivial, fun _ => rfl⟩

theorem eventsOf_emit_same (s : State) (t : Thread) (e : Event) :
    (s.emit t e).eventsOf t = s.eventsOf t ++ [e] := by
  simp [State.emit, State.eventsOf, List.filter_append]

theorem eventsOf_emit_other (s : State) (t u : Thread) (e : Event) (h : t ≠ u) :
    (s.emit t e).eventsOf u = s.eventsOf u := by
  simp [State.emit, State.eventsOf, List.filter_append, h]

theorem inv_stepCaller (cfg : Config) (s : State) (h : Inv cfg s) : Inv cfg (stepCaller cfg s) := by
  obtain ⟨⟨sig, hc⟩, hd, hg, hgd, hn⟩ := h
  rcases s with ⟨cpc, gpc, cap, quit, notified, trace⟩
  simp only [State.eventsOf] at hc hg
  dsimp only at hd hgd hn
  cases cpc
  case waitQuit =>
    cases quit with
    | nil => exact ⟨⟨sig, hc⟩, hd, hg, hgd, hn⟩
    | cons sg rest =>
      refine ⟨⟨sg, ?_⟩, trivial, ?_, hgd, by simp [stepCaller, CallerPc.beforeGo]⟩
      · simp [stepCaller, State.emit, State.eventsOf, List.filter_append, hc, callerEvents,
          callerShut]
      · simpa [stepCaller, State.emit, State.eventsOf, List.filter_append] using hg
  case testErr err =>
    cases err with
    | none =>
      exact ⟨⟨sig, hc⟩, by simpa [stepCaller, callerData] using hd.symm, hg, hgd,
        by simp [stepCaller, CallerPc.beforeGo]⟩
    | some e =>
      exact ⟨⟨sig, hc⟩, by simpa [stepCaller, callerData] using hd.symm, hg, hgd,
        by simp [stepCaller, CallerPc.beforeGo]⟩
  case spawn =>
    have hgp : gpc = .notSpawned := hn rfl
    subst hgp
    refine ⟨⟨sig, ?_⟩, trivial, ?_, trivial, by simp [stepCaller, CallerPc.beforeGo]⟩
    · simp [stepCaller, State.emit, State.eventsOf, List.filter_append, hc, callerEvents,
        callerSetup]
    · simpa [stepCaller, State.emit, State.eventsOf, List.filter_append, goroutineEvents] using hg
  case returned r => exact ⟨⟨sig, hc⟩, hd, hg, hgd, hn⟩
  all_goals
    refine ⟨⟨sig, ?_⟩, ?_, ?_, hgd, ?_⟩
    · simp only [callerData] at hd
      simp [stepCaller, State.emit, State.eventsOf, List.filter_append, hc, callerEvents,
        callerSetup, callerShut, outcomeRecord, hd]
    · simp_all [stepCaller, callerData, State.emit]
    · simpa [stepCaller, State.emit, State.eventsOf, List.filter_append] using hg
    · simp_all [stepCaller, CallerPc.beforeGo, State.emit]

theorem inv_stepGoroutine (cfg : Config) (s : State) (h : Inv cfg s) :
    Inv cfg (stepGoroutine cfg s) := by
  obtain ⟨⟨sig, hc⟩, hd, hg, hgd, hn⟩ := h
  rcases s with ⟨cpc, gpc, cap, quit, notified, trace⟩
  simp only [State.eventsOf] at hc hg
  dsimp only at hd hgd hn
  cases gpc
  case notSpawned => exact ⟨⟨sig, hc⟩, hd, hg, hgd, hn⟩
  case finished => exact ⟨⟨sig, hc⟩, hd, hg, hgd, hn⟩
  case testErr err =>
    simp only [goroutineData] at hgd
    subst hgd
    have hcp : cpc.beforeGo = false := by
      cases hb : cpc.beforeGo
      · rfl
      · exact absurd (hn hb) (by simp)
    rcases hr : cfg.serveResult with _ | e
    · refine ⟨⟨sig, hc⟩, hd, ?_, ?_, ?_⟩
      · simpa [stepGoroutine, hr, State.eventsOf, goroutineEvents, failureRecords] using hg
      · simp [stepGoroutine, hr, goroutineData]
      · simp [stepGoroutine, hr, hcp]
    · by_cases he : e = .ErrServerClosed
      · refine ⟨⟨sig, ?_⟩, ?_, ?_, ?_, ?_⟩
        · simpa [stepGoroutine, he, State.eventsOf] using hc
        · simpa [stepGoroutine, he] using hd
        · simpa [stepGoroutine, hr, he, State.eventsOf, goroutineEvents, failureRecords] using hg
        · simp [stepGoroutine, hr, he, goroutineData]
        · simp [stepGoroutine, hr, he, hcp]
      · refine ⟨⟨sig, ?_⟩, ?_, ?_, ?_, ?_⟩
        · simpa [stepGoroutine, he, State.eventsOf] using hc
        · simpa [stepGoroutine, he] using hd
        · simpa [stepGoroutine, hr, he, State.eventsOf, goroutineEvents, failureRecords] using hg
        · simp [stepGoroutine, hr, he, goroutineData]
        · simp [stepGoroutine, hr, he, hcp]
  all_goals
    have hcp : cpc.beforeGo = false := by
      cases hb : cpc.beforeGo
      · rfl
      · exact absurd (hn hb) (by simp)
    refine ⟨⟨sig, ?_⟩, hd, ?_, ?_, ?_⟩
    · simpa [stepGoroutine, State.emit, State.eventsOf, List.filter_append] using hc
    · simp only [goroutineData] at hgd
      simp [stepGoroutine, State.emit, State.eventsOf, List.filter_append, hg, goroutineEvents,
        goroutineServe, failureRecords, hgd]
    · simp_all [stepGoroutine, goroutineData, State.emit]
    · simp [stepGoroutine, State.emit, hcp]

theorem inv_deliver (cfg : Config) (sig : Signal) (s : State) (h : Inv cfg s) :
    Inv cfg (deliver sig s) := by
  unfold deliver
  split
  · exact ⟨h.caller, h.callerData, h.goroutine, h.goroutineData, h.notSpawned⟩
  · exact h

theorem inv_step (cfg : Config) (s : State) (a : Action) (h : Inv cfg s) : Inv cfg (step cfg s a) := by
  cases a
  · exact inv_stepCaller cfg s h
  · exact inv_stepGoroutine cfg s h
  · exact inv_deliver cfg _ s h

theorem inv_runFrom (cfg : Config) (sched : List Action) :
    ∀ s, Inv cfg s → Inv cfg (runFrom cfg s sched) := by
  induction sched with
  | nil => intro s h; exact h
  | cons a rest ih => intro s h; exact ih _ (inv_step cfg s a h)

theorem inv_run (cfg : Config) (sched : List Action) :
    Inv cfg (RunServerWithGracefulShutdown cfg sched) :=
  inv_runFrom cfg sched _ (inv_init cfg)

theorem runFrom_append (cfg : Config) (s : State) (xs ys : List Action) :
    runFrom cfg s (xs ++ ys) = runFrom cfg (runFrom cfg s xs) ys := by
  simp [runFrom, List.foldl_append]

theorem run_append (cfg : Config) (xs ys : List Action) :
    RunServerWithGracefulShutdown cfg (xs ++ ys) =
      runFrom cfg (RunServerWithGracefulShutdown cfg xs) ys :=
  runFrom_append cfg _ xs ys

/-- The signal has been received exactly at the program points after line 73. -/
theorem recv_mem_callerEvents (cfg : Config) (sig sg : Signal) (pc : CallerPc) :
    Event.Recv sg ∈ callerEvents cfg sig pc ↔ (pc.beforeRecv = false ∧ sg = sig) := by
  cases pc <;> simp [callerEvents, callerSetup, callerShut, outcomeRecord, CallerPc.beforeRecv] <;>
    (try split) <;> simp

/-- After the signal has been received seven statements of the calling thread
complete the function. -/
theorem caller_completes (cfg : Config) (s : State) (hd : callerData cfg s.cpc)
    (hb : s.cpc.beforeRecv = false) :
    (runFrom cfg s (List.replicate 7 .caller)).cpc = .returned cfg.shutdownResult := by
  rcases s with ⟨cpc, gpc, cap, quit, notified, trace⟩
  dsimp only at hd hb
  cases cpc <;> simp [CallerPc.beforeRecv] at hb <;> simp only [callerData] at hd <;>
    (try subst hd) <;>
    rcases hr : cfg.shutdownResult with _ | e <;>
    simp_all [runFrom, List.replicate, step, stepCaller, State.emit]

theorem callerView_stepGoroutine (cfg : Config) (s : State) :
    (stepGoroutine cfg s).callerView = s.callerView := by
  rcases s with ⟨cpc, gpc, cap, quit, notified, trace⟩
  cases gpc <;>
    simp [stepGoroutine, State.callerView, State.emit, State.eventsOf, List.filter_append]
  case testErr err =>
    rcases err with _ | e
    · simp
    · by_cases he : e = .ErrServerClosed <;> simp [he]

theorem callerView_stepCaller (c1 c2 : Config) (s1 s2 : State)
    (happ : c1.app = c2.app) (hport : c1.port = c2.port)
    (hsd : c1.shutdownResult = c2.shutdownResult) (h : s1.callerView = s2.callerView) :
    (stepCaller c1 s1).callerView = (stepCaller c2 s2).callerView := by
  rcases s1 with ⟨cpc1, gpc1, cap1, quit1, notified1, trace1⟩
  rcases s2 with ⟨cpc2, gpc2, cap2, quit2, notified2, trace2⟩
  simp only [State.callerView, State.eventsOf, Prod.mk.injEq] at h
  obtain ⟨h1, h2, h3, h4, h5⟩ := h
  subst h1 h2 h3 h4
  have hsrv : c1.server = c2.server := by simp [Config.server, happ, hport]
  cases cpc1
  case waitQuit =>
    cases quit1 <;>
      simp [stepCaller, State.callerView, State.emit, State.eventsOf, List.filter_append, h5]
  case testErr err =>
    rcases err with _ | e <;> simp [stepCaller, State.callerView, State.eventsOf, h5]
  all_goals
    simp [stepCaller, State.callerView, State.emit, State.eventsOf, List.filter_append, h5,
      happ, hsrv, hsd]

theorem callerView_deliver (sig : Signal) (s1 s2 : State) (h : s1.callerView = s2.callerView) :
    (deliver sig s1).callerView = (deliver sig s2).callerView := by
  rcases s1 with ⟨cpc1, gpc1, cap1, quit1, notified1, trace1⟩
  rcases s2 with ⟨cpc2, gpc2, cap2, quit2, notified2, trace2⟩
  simp only [State.callerView, State.eventsOf, Prod.mk.injEq] at h
  obtain ⟨h1, h2, h3, h4, h5⟩ := h
  subst h1 h2 h3 h4
  unfold deliver
  dsimp only
  split <;> simp [State.callerView, State.eventsOf, h5]

/-- The calling thread cannot observe what `ListenAndServe` returned. -/
theorem callerView_runFrom (c1 c2 : Config) (happ : c1.app = c2.app) (hport : c1.port = c2.port)
    (hsd : c1.shutdownResult = c2.shutdownResult) (sched : List Action) :
    ∀ s1 s2 : State, s1.callerView = s2.callerView →
      (runFrom c1 s1 sched).callerView = (runFrom c2 s2 sched).callerView := by
  induction sched with
  | nil => intro s1 s2 h; exact h
  | cons a rest ih =>
    intro s1 s2 h
    apply ih
    cases a
    · exact callerView_stepCaller c1 c2 s1 s2 happ hport hsd h
    · show (stepGoroutine c1 s1).callerView = (stepGoroutine c2 s2).callerView
      rw [callerView_stepGoroutine, callerView_stepGoroutine, h]
    · exact callerView_deliver _ s1 s2 h

/-- A returned value is the one `Shutdown` returned. -/
theorem result_eq_shutdownResult (cfg : Config) (sched : List Action) (r : Option GoError)
    (h : (RunServerWithGracefulShutdown cfg sched).result = some r) : r = cfg.shutdownResult := by
  have hd := (inv_run cfg sched).callerData
  cases hpc : (RunServerWithGracefulShutdown cfg sched).cpc <;> simp [State.result, hpc] at h
  subst h
  rw [hpc] at hd
  exact hd

theorem result_none_of_beforeRecv (s : State) (h : s.cpc.beforeRecv = true) : s.result = none := by
  rcases s with ⟨cpc, gpc, cap, quit, notified, trace⟩
  cases cpc <;> simp [CallerPc.beforeRecv] at h <;> rfl

/-- Without a delivered signal the channel stays empty and the calling thread
stays at or before line 73. -/
theorem blocked_without_signal (cfg : Config) (sched : List Action)
    (hs : ∀ a ∈ sched, a.isSignal = false) :
    ∀ s : State, s.quit = [] → s.cpc.beforeRecv = true →
      (runFrom cfg s sched).quit = [] ∧ (runFrom cfg s sched).cpc.beforeRecv = true := by
  induction sched with
  | nil => intro s hq hb; exact ⟨hq, hb⟩
  | cons a rest ih =>
    intro s hq hb
    have ha := hs a (List.mem_cons_self _ _)
    have hrest : ∀ b ∈ rest, b.isSignal = false := fun b hb => hs b (List.mem_cons_of_mem _ hb)
    rcases s with ⟨cpc, gpc, cap, quit, notified, trace⟩
    dsimp only at hq hb
    subst hq
    cases a
    · apply ih hrest
      · cases cpc <;> simp_all [step, stepCaller, State.emit, CallerPc.beforeRecv]
      · cases cpc <;> simp_all [step, stepCaller, State.emit, CallerPc.beforeRecv]
    · have hv := callerView_stepGoroutine cfg ⟨cpc, gpc, cap, [], notified, trace⟩
      simp only [State.callerView, Prod.mk.injEq] at hv
      apply ih hrest
      · exact hv.2.2.1
      · show (stepGoroutine cfg _).cpc.beforeRecv = true
        rw [hv.1]; exact hb
    · simp [Action.isSignal] at ha

/-- Counting over the whole trace is counting over each thread. -/
theorem countP_events (p : Event → Bool) (s : State) :
    s.events.countP p = (s.eventsOf .caller).countP p + (s.eventsOf .goroutine).countP p := by
  rcases s with ⟨cpc, gpc, cap, quit, notified, trace⟩
  simp only [State.events, State.eventsOf]
  induction trace with
  | nil => simp
  | cons x xs ih =>
    rcases x with ⟨t, e⟩
    cases t <;> by_cases hp : p e <;> simp [List.filter_cons, List.countP_cons, hp, ih] <;> omega

theorem goroutine_no_outcome (cfg : Config) (pc : GoroutinePc) :
    (goroutineEvents cfg pc).countP Event.isGraceful = 0 ∧
      (goroutineEvents cfg pc).countP Event.isForced = 0 := by
  have hf : (failureRecords cfg).countP Event.isGraceful = 0 ∧
      (failureRecords cfg).countP Event.isForced = 0 := by
    unfold failureRecords
    split
    · split <;> simp [Event.isGraceful, Event.isForced]
    · simp
  cases pc <;>
    simp [goroutineEvents, goroutineServe, List.countP_cons, List.countP_append,
      Event.isGraceful, Event.isForced, hf.1, hf.2]

theorem callerEvents_eq_take (cfg : Config) (sig : Signal) (pc : CallerPc) :
    callerEvents cfg sig pc = (callerScript cfg sig).take pc.done := by
  cases pc <;> simp [callerEvents, callerScript, callerSetup, callerShut, CallerPc.done]

/-- In the calling thread's script nothing of the shutdown sequence comes before
the receipt of the signal. -/
theorem script_no_init_before_recv (cfg : Config) (sig : Signal) (j : Nat)
    (h : ∀ e ∈ (callerScript cfg sig).take j, e.isRecv = false) :
    ∀ e ∈ (callerScript cfg sig).take j, e.isShutdownInit = false := by
  rcases j with _ | _ | _ | _ | _ | j
  · simp
  · simp [callerScript, callerSetup, Event.isShutdownInit]
  · simp [callerScript, callerSetup, Event.isShutdownInit]
  · simp [callerScript, callerSetup, Event.isShutdownInit]
  · simp [callerScript, callerSetup, Event.isShutdownInit]
  · exfalso
    have := h (.Recv sig) (by simp [callerScript, callerSetup, callerShut])
    simp [Event.isRecv] at this

theorem cpc_stepGoroutine (cfg : Config) (s : State) : (stepGoroutine cfg s).cpc = s.cpc := by
  have h := callerView_stepGoroutine cfg s
  simp only [State.callerView, Prod.mk.injEq] at h
  exact h.1

theorem cpc_deliver (sig : Signal) (s : State) : (deliver sig s).cpc = s.cpc := by
  unfold deliver
  split <;> rfl

/-- One step keeps the phase or moves it one position forward, and never leaves
a terminal phase. -/
theorem phase_step (cfg : Config) (s : State) (a : Action) :
    s.cpc.phase.rank ≤ (step cfg s a).cpc.phase.rank ∧
      (step cfg s a).cpc.phase.rank ≤ s.cpc.phase.rank + 1 ∧
      (s.cpc.phase = .Stopped → (step cfg s a).cpc.phase = .Stopped) ∧
      (s.cpc.phase = .ForcedStopped → (step cfg s a).cpc.phase = .ForcedStopped) := by
  cases a
  · rcases s with ⟨cpc, gpc, cap, quit, notified, trace⟩
    cases cpc
    case waitQuit => cases quit <;> simp [step, stepCaller, State.emit, CallerPc.phase, Phase.rank]
    case testErr err =>
      cases err <;> simp [step, stepCaller, CallerPc.phase, Phase.rank]
    case deferred r => cases r <;> simp [step, stepCaller, State.emit, CallerPc.phase, Phase.rank]
    case returning r => cases r <;> simp [step, stepCaller, State.emit, CallerPc.phase, Phase.rank]
    case returned r => cases r <;> simp [step, stepCaller, State.emit, CallerPc.phase, Phase.rank]
    case shutdown =>
      cases hr : cfg.shutdownResult <;>
        simp [step, stepCaller, State.emit, CallerPc.phase, Phase.rank, hr]
    all_goals simp [step, stepCaller, State.emit, CallerPc.phase, Phase.rank]
  · simp [step, cpc_stepGoroutine]
  · simp [step, cpc_deliver]

theorem phase_runFrom (cfg : Config) (more : List Action) :
    ∀ s : State, s.cpc.phase.rank ≤ (runFrom cfg s more).cpc.phase.rank ∧
      (s.cpc.phase = .Stopped → (runFrom cfg s more).cpc.phase = .Stopped) ∧
      (s.cpc.phase = .ForcedStopped → (runFrom cfg s more).cpc.phase = .ForcedStopped) := by
  induction more with
  | nil => intro s; exact ⟨le_refl _, id, id⟩
  | cons a rest ih =>
    intro s
    have h1 := phase_step cfg s a
    have h2 := ih (step cfg s a)
    exact ⟨le_trans h1.1 h2.1, fun h => h2.2.1 (h1.2.2.1 h), fun h => h2.2.2 (h1.2.2.2 h)⟩

theorem outcomeRecord_not_shutdownCall (cfg : Config) (r : Option GoError) :
    (outcomeRecord cfg r).isShutdownCall = false := by
  cases r <;> rfl

theorem shutdownCall_count (cfg : Config) (sig : Signal) (pc : CallerPc) :
    (callerEvents cfg sig pc).countP Event.isShutdownCall ≤ 1 := by
  have ho := outcomeRecord_not_shutdownCall cfg cfg.shutdownResult
  cases pc <;>
    simp [callerEvents, callerSetup, callerShut, List.countP_cons,
      List.countP_append, ho] <;>
    simp [Event.isShutdownCall]

theorem goroutine_no_shutdownCall (cfg : Config) (pc : GoroutinePc) :
    (goroutineEvents cfg pc).countP Event.isShutdownCall = 0 := by
  have hf : (failureRecords cfg).countP Event.isShutdownCall = 0 := by
    unfold failureRecords
    split
    · split <;> simp [Event.isShutdownCall]
    · simp
  cases pc <;>
    simp [goroutineEvents, goroutineServe, List.countP_cons, List.countP_append,
      Event.isShutdownCall, hf]

theorem mem_eventsOf (s : State) (t : Thread) (e : Event) :
    e ∈ s.eventsOf t ↔ (t, e) ∈ s.trace := by
  simp only [State.eventsOf, List.mem_map, List.mem_filter, decide_eq_true_eq]
  constructor
  · rintro ⟨⟨t2, e2⟩, ⟨hm, ht⟩, he⟩
    simp only at ht he
    subst ht he
    exact hm
  · intro h
    exact ⟨(t, e), ⟨h, rfl⟩, rfl⟩

/-- Under `fullSchedule` every run returns what `Shutdown` returned and the
goroutine finishes. -/
theorem fullSchedule_returns (cfg : Config) :
    (RunServerWithGracefulShutdown cfg fullSchedule).result = some cfg.shutdownResult ∧
      (RunServerWithGracefulShutdown cfg fullSchedule).gpc = .finished := by
  rcases cfg with ⟨app, port, sr, sd⟩
  rcases sr with _ | e <;> rcases sd with _ | d
  · exact ⟨rfl, rfl⟩
  · exact ⟨rfl, rfl⟩
  · by_cases he : e = .ErrServerClosed <;>
      simp [fullSchedule, RunServerWithGracefulShutdown, runFrom, step, stepCaller,
        stepGoroutine, deliver, State.emit, State.init, State.result, List.replicate, he]
  · by_cases he : e = .ErrServerClosed <;>
      simp [fullSchedule, RunServerWithGracefulShutdown, runFrom, step, stepCaller,
        stepGoroutine, deliver, State.emit, State.init, State.result, List.replicate, he]

theorem outcomeRecord_flags (cfg : Config) (r : Option GoError) :
    (outcomeRecord cfg r).isWithTimeout = false ∧ (outcomeRecord cfg r).isCancel = false := by
  cases r <;> exact ⟨rfl, rfl⟩

theorem failureRecords_mem (cfg : Config) (e : Event) (h : e ∈ failureRecords cfg) :
    ∃ err, cfg.serveResult = some err ∧ err ≠ .ErrServerClosed ∧
      e = .Log cfg.app.Logger .Error "Server failed" [.Error err] := by
  unfold failureRecords at h
  split at h
  · rename_i err hr
    split at h
    · simp at h
      exact ⟨err, hr, by assumption, h⟩
    · simp at h
  · simp at h

theorem goroutineEvents_mem (cfg : Config) (pc : GoroutinePc) (e : Event)
    (h : e ∈ goroutineEvents cfg pc) :
    e ∈ goroutineServe cfg ∨ e ∈ failureRecords cfg ∨ e = .GoroutineEnd := by
  cases pc <;> simp [goroutineEvents, goroutineServe] at h ⊢ <;> tauto

theorem callerEvents_mem (cfg : Config) (sig : Signal) (pc : CallerPc) (e : Event)
    (h : e ∈ callerEvents cfg sig pc) : e ∈ callerScript cfg sig := by
  rw [callerEvents_eq_take] at h
  exact List.mem_of_mem_take h

theorem logRecords_length (s : State) :
    s.logRecords.length = (s.eventsOf .caller).countP Event.isLog +
      (s.eventsOf .goroutine).countP Event.isLog := by
  rw [State.logRecords, ← List.countP_eq_length_filter, countP_events]

theorem outcomeRecord_isLog (cfg : Config) (r : Option GoError) :
    (outcomeRecord cfg r).isLog = true := by
  cases r <;> rfl

theorem failureRecords_cases (cfg : Config) :
    (failureRecords cfg = [] ∧ (cfg.serveResult = none ∨ cfg.serveResult = some .ErrServerClosed)) ∨
    (∃ e, cfg.serveResult = some e ∧ e ≠ .ErrServerClosed ∧
      failureRecords cfg = [.Log cfg.app.Logger .Error "Server failed" [.Error e]]) := by
  unfold failureRecords
  rcases hr : cfg.serveResult with _ | e
  · simp
  · by_cases he : e = .ErrServerClosed
    · simp [he]
    · right
      exact ⟨e, rfl, he, by simp [he]⟩

/-- On a successful `InitLogger`, `InitApp` returns, and this is what it leaves. -/
theorem InitApp_ok (logger : LoggerRef) (w : World) :
    InitApp (.ok logger) w =
      ({ registries := w.registries ++ [[.GoCollector, .ProcessCollector]],
         routers := w.routers ++
           [[⟨"GET", "/metrics", .PromHandlerFor w.registries.length⟩]] },
       [.InitLogger, .NewRegistry w.registries.length,
        .MustRegister w.registries.length .GoCollector,
        .MustRegister w.registries.length .ProcessCollector,
        .NewRouter w.routers.length,
        .RouterHandler w.routers.length "GET" "/metrics" (.PromHandlerFor w.registries.length),
        .Sync logger,
        .ReturnApp ⟨logger, w.routers.length, w.registries.length⟩],
       .returned ⟨logger, w.routers.length, w.registries.length⟩) := by
  simp [InitApp, World.register, World.handle]

theorem served_mem_goroutineEvents (cfg : Config) (r : Option GoError) (pc : GoroutinePc)
    (h : Event.Served r ∈ goroutineEvents cfg pc) : pc.afterServe = true := by
  cases pc <;> simp [goroutineEvents, goroutineServe, GoroutinePc.afterServe] at h ⊢

/-- After `ListenAndServe` has returned three statements end the goroutine. -/
theorem goroutine_completes (cfg : Config) (s : State) (hb : s.gpc.afterServe = true) :
    (runFrom cfg s (List.replicate 3 .goroutine)).gpc = .finished := by
  rcases s with ⟨cpc, gpc, cap, quit, notified, trace⟩
  dsimp only at hb
  cases gpc <;> simp [GoroutinePc.afterServe] at hb
  case testErr err =>
    rcases err with _ | e
    · simp [runFrom, List.replicate, step, stepGoroutine, State.emit]
    · by_cases he : e = .ErrServerClosed <;>
        simp [runFrom, List.replicate, step, stepGoroutine, State.emit, he]
  all_goals simp [runFrom, List.replicate, step, stepGoroutine, State.emit]

theorem failureRecords_count (cfg : Config) (p : Event → Bool) :
    (failureRecords cfg).countP p ≤ 1 := by
  rcases failureRecords_cases cfg with h | ⟨e, -, -, h⟩
  · rw [h.1]; simp
  · rw [h]; exact List.countP_le_length _

theorem caller_no_listenAndServe (cfg : Config) (sig : Signal) (pc : CallerPc) :
    (callerEvents cfg sig pc).countP Event.isListenAndServe = 0 := by
  rw [List.countP_eq_zero]
  intro e he
  have h2 := callerEvents_mem cfg sig _ _ he
  simp [callerScript, callerSetup, callerShut] at h2
  rcases h2 with h | h | h | h | h | h | h | h | h | h | h <;> subst h <;>
    first
    | (simp [Event.isListenAndServe]; done)
    | (cases cfg.shutdownResult <;> simp [outcomeRecord, Event.isListenAndServe])

theorem digitChar_toNat (d : Nat) (h : d < 10) : (digitChar d).toNat = 48 + d := by
  interval_cases d <;> rfl

theorem digitChar_isDigit (d : Nat) (h : d < 10) : isDigitChar (digitChar d) := by
  unfold isDigitChar
  rw [digitChar_toNat d h]
  omega

theorem digitChar_eq_zero (d : Nat) (h : d < 10) (h0 : digitChar d = '0') : d = 0 := by
  have := congrArg Char.toNat h0
  rw [digitChar_toNat d h] at this
  have h48 : ('0' : Char).toNat = 48 := rfl
  omega

theorem parseDigits_snoc (c : Char) (hc : isDigitChar c) :
    ∀ (xs : List Char) (a n : Nat), parseDigits xs (some a) = some n →
      parseDigits (xs ++ [c]) (some a) = some (n * 10 + (c.toNat - 48)) := by
  intro xs
  induction xs with
  | nil =>
    intro a n h
    simp only [parseDigits, Option.some.injEq] at h
    subst h
    have hc2 : 48 ≤ c.toNat ∧ c.toNat ≤ 57 := hc
    simp [parseDigits, hc2]
  | cons x xs ih =>
    intro a n h
    by_cases hx : 48 ≤ x.toNat ∧ x.toNat ≤ 57
    · simp only [parseDigits, hx, and_self, if_true, List.cons_append] at h ⊢
      exact ih _ n h
    · simp [parseDigits, hx] at h

theorem parseNat_snoc (c : Char) (hc : isDigitChar c) (xs : List Char) (n : Nat)
    (hne : xs ≠ []) (h : parseNat xs = some n) :
    parseNat (xs ++ [c]) = some (n * 10 + (c.toNat - 48)) := by
  cases xs with
  | nil => exact absurd rfl hne
  | cons x xs =>
    unfold parseNat at h ⊢
    by_cases hx : 48 ≤ x.toNat ∧ x.toNat ≤ 57
    · simp only [parseDigits, hx, and_self, if_true, List.cons_append] at h ⊢
      exact parseDigits_snoc c hc xs _ n h
    · simp [parseDigits, hx] at h

/-- What `fmtUintAux` writes, given enough fuel: a non-empty run of digits, with
no leading zero except for the numeral `0`, that reads back as `u`. -/
theorem fmtUintAux_spec :
    ∀ (fuel u : Nat), u ≤ fuel →
      fmtUintAux fuel u ≠ [] ∧ (∀ c ∈ fmtUintAux fuel u, isDigitChar c) ∧
      parseNat (fmtUintAux fuel u) = some u ∧
      ((fmtUintAux fuel u).head? = some '0' → fmtUintAux fuel u = ['0'] ∧ u = 0) := by
  intro fuel
  induction fuel with
  | zero =>
    intro u hu
    have h0 : u = 0 := by omega
    subst h0
    exact ⟨by decide, by decide, by decide, by decide⟩
  | succ fuel ih =>
    intro u hu
    by_cases hlt : u < 10
    · have hd := digitChar_isDigit u hlt
      have hd2 : 48 ≤ (digitChar u).toNat ∧ (digitChar u).toNat ≤ 57 := hd
      have ht := digitChar_toNat u hlt
      refine ⟨by simp [fmtUintAux, hlt], ?_, ?_, ?_⟩
      · intro c hcm
        simp [fmtUintAux, hlt] at hcm
        subst hcm
        exact hd
      · simp [fmtUintAux, hlt, parseNat, parseDigits, hd2, ht]
        omega
      · intro hh
        simp [fmtUintAux, hlt] at hh
        have h0 := digitChar_eq_zero u hlt hh
        subst h0
        exact ⟨by simp [fmtUintAux]; rfl, rfl⟩
    · have hdiv : u / 10 ≤ fuel := by omega
      obtain ⟨h1, h2, h3, h4⟩ := ih (u / 10) hdiv
      have hm : u % 10 < 10 := Nat.mod_lt _ (by norm_num)
      have hd := digitChar_isDigit (u % 10) hm
      have ht := digitChar_toNat (u % 10) hm
      have hun : fmtUintAux (fuel + 1) u = fmtUintAux fuel (u / 10) ++ [digitChar (u % 10)] := by
        simp [fmtUintAux, hlt]
      rw [hun]
      refine ⟨by simp, ?_, ?_, ?_⟩
      · intro c hcm
        rcases List.mem_append.mp hcm with h | h
        · exact h2 c h
        · simp at h
          subst h
          exact hd
      · rw [parseNat_snoc _ hd _ _ h1 h3, ht]
        congr 1
        omega
      · intro hh
        rw [List.head?_append_of_ne_nil _ h1] at hh
        have := (h4 hh).2
        omega

theorem fmtUintAux_length :
    ∀ (fuel u k : Nat), u ≤ fuel → u < 10 ^ (k + 1) → (fmtUintAux fuel u).length ≤ k + 1 := by
  intro fuel
  induction fuel with
  | zero => intro u k _ _; simp [fmtUintAux]
  | succ fuel ih =>
    intro u k hu hk
    by_cases hlt : u < 10
    · simp [fmtUintAux, hlt]
    · cases k with
      | zero => simp at hk; omega
      | succ k =>
        have hdiv : u / 10 ≤ fuel := by omega
        have hk2 : u / 10 < 10 ^ (k + 1) := by
          rw [Nat.div_lt_iff_lt_mul (by norm_num)]
          calc u < 10 ^ (k + 1 + 1) := hk
            _ = 10 ^ (k + 1) * 10 := by ring
        have := ih (u / 10) k hdiv hk2
        simp [fmtUintAux, hlt]
        omega

/-! ## Claims -/

/-- C1: whenever `RunServerWithGracefulShutdown` has returned, the value it
returned is the value `server.Shutdown(ctx)` returned, unchanged (so it is `nil`
exactly when `Shutdown` returned `nil`), `Shutdown` was called on the server
after a signal was received; and once the calling thread has received a signal,
seven more of its statements make the function return that value. -/
theorem C1_returns_shutdown_result (cfg : Config) (sched : List Action) :
    (∀ r, (RunServerWithGracefulShutdown cfg sched).result = some r →
      r = cfg.shutdownResult ∧ (r = none ↔ cfg.shutdownResult = none) ∧
      Event.Shutdown cfg.server shutdownCtx ∈
        (RunServerWithGracefulShutdown cfg sched).eventsOf .caller ∧
      ∃ sig, Event.Recv sig ∈ (RunServerWithGracefulShutdown cfg sched).eventsOf .caller) ∧
    ((∃ sig, Event.Recv sig ∈ (RunServerWithGracefulShutdown cfg sched).eventsOf .caller) →
      (RunServerWithGracefulShutdown cfg (sched ++ List.replicate 7 .caller)).result =
        some cfg.shutdownResult) := by
  have hinv := inv_run cfg sched
  obtain ⟨sig, hc⟩ := hinv.caller
  have hd := hinv.callerData
  constructor
  · intro r hr
    cases hpc : (RunServerWithGracefulShutdown cfg sched).cpc <;>
      simp [State.result, hpc] at hr
    subst hr
    rw [hpc] at hd hc
    simp only [callerData] at hd
    refine ⟨hd, by rw [hd], ?_, sig, ?_⟩
    · rw [hc]; simp [callerEvents, callerShut]
    · rw [hc]; simp [callerEvents, callerShut]
  · rintro ⟨sg, hsg⟩
    rw [hc, recv_mem_callerEvents] at hsg
    rw [run_append, State.result, caller_completes cfg _ hd hsg.1]

theorem C1_returns_shutdown_result_witness :
    (RunServerWithGracefulShutdown cfgForced fullSchedule).result =
        some (some (.other "context deadline exceeded")) ∧
      some (GoError.other "context deadline exceeded") = cfgForced.shutdownResult :=
  ⟨by decide, ((C1_returns_shutdown_result cfgForced fullSchedule).1 _ (by decide)).1⟩

/-- C2: a start failure does not propagate to the caller.  Under every schedule,
replacing what `ListenAndServe` returns in the goroutine by any other value
`x` (`nil`, `http.ErrServerClosed` or any error) changes neither the result of
the function nor the effects of the calling thread; any two runs whose
`Shutdown` yields the same result return the same error whatever
`ListenAndServe` returned in each; and under a schedule that delivers no
signal the function has not returned, whatever `ListenAndServe` returned. -/
theorem C2_start_failure_not_propagated (cfg : Config) (x : Option GoError)
    (sched : List Action) :
    (RunServerWithGracefulShutdown (cfg.withServeResult x) sched).result =
        (RunServerWithGracefulShutdown cfg sched).result ∧
    (RunServerWithGracefulShutdown (cfg.withServeResult x) sched).eventsOf .caller =
        (RunServerWithGracefulShutdown cfg sched).eventsOf .caller ∧
    (∀ (cfg2 : Config) (sched2 : List Action) (r1 r2 : Option GoError),
      cfg2.shutdownResult = cfg.shutdownResult →
      (RunServerWithGracefulShutdown cfg sched).result = some r1 →
      (RunServerWithGracefulShutdown cfg2 sched2).result = some r2 → r1 = r2) ∧
    ((∀ a ∈ sched, a.isSignal = false) →
      (RunServerWithGracefulShutdown (cfg.withServeResult x) sched).result = none) := by
  have hv := callerView_runFrom (cfg.withServeResult x) cfg rfl rfl rfl sched
    State.init State.init rfl
  simp only [State.callerView, Prod.mk.injEq] at hv
  refine ⟨?_, hv.2.2.2.2, ?_, ?_⟩
  · show State.result (runFrom _ _ _) = State.result (runFrom _ _ _)
    simp only [State.result, hv.1]
  · intro cfg2 sched2 r1 r2 hsd h1 h2
    have e1 := result_eq_shutdownResult cfg sched r1 h1
    have e2 := result_eq_shutdownResult cfg2 sched2 r2 h2
    rw [e1, e2, hsd]
  · intro hs
    have hb := (blocked_without_signal (cfg.withServeResult x) sched hs State.init rfl rfl).2
    exact result_none_of_beforeRecv _ hb

theorem C2_start_failure_not_propagated_witness :
    (∀ a ∈ scheduleWithoutSignal, a.isSignal = false) ∧
      (RunServerWithGracefulShutdown cfgBindFails scheduleWithoutSignal).gpc = .finished ∧
      (RunServerWithGracefulShutdown (cfgBindFails.withServeResult
        (some (.other "listen tcp :8080: bind: address already in use")))
        scheduleWithoutSignal).result = none :=
  ⟨by decide, by decide,
    (C2_start_failure_not_propagated cfgBindFails _ scheduleWithoutSignal).2.2.2 (by decide)⟩

/-- C3: in every run of `RunServerWithGracefulShutdown` that has returned `r`,
the calling thread has logged exactly one outcome record (the Info record
"Server exited gracefully" or the Error record "Server forced to shutdown"),
exactly once; it is the graceful one if and only if `r` is `nil` and the forced
one if and only if `r` is an error; the goroutine logs neither, so the same
holds of the whole run. -/
theorem C3_exactly_one_outcome (cfg : Config) (sched : List Action) (r : Option GoError)
    (h : (RunServerWithGracefulShutdown cfg sched).result = some r) :
    ((RunServerWithGracefulShutdown cfg sched).eventsOf .caller).countP Event.isGraceful +
        ((RunServerWithGracefulShutdown cfg sched).eventsOf .caller).countP Event.isForced = 1 ∧
    (((RunServerWithGracefulShutdown cfg sched).eventsOf .caller).countP Event.isGraceful = 1 ↔
        r = none) ∧
    (((RunServerWithGracefulShutdown cfg sched).eventsOf .caller).countP Event.isForced = 1 ↔
        r ≠ none) ∧
    (RunServerWithGracefulShutdown cfg sched).events.countP Event.isGraceful +
        (RunServerWithGracefulShutdown cfg sched).events.countP Event.isForced = 1 ∧
    ((RunServerWithGracefulShutdown cfg sched).events.countP Event.isGraceful = 1 ↔ r = none) := by
  have hinv := inv_run cfg sched
  obtain ⟨sig, hc⟩ := hinv.caller
  have hd := hinv.callerData
  have hg := goroutine_no_outcome cfg (RunServerWithGracefulShutdown cfg sched).gpc
  rw [← hinv.goroutine] at hg
  rw [countP_events, countP_events, hg.1, hg.2]
  cases hpc : (RunServerWithGracefulShutdown cfg sched).cpc <;> simp [State.result, hpc] at h
  subst h
  rw [hpc] at hd hc
  simp only [callerData] at hd
  rw [hc]
  rcases hr : cfg.shutdownResult with _ | e <;>
    simp [hd, hr, callerEvents, callerSetup, callerShut, outcomeRecord, List.countP_cons,
      Event.isGraceful, Event.isForced]

theorem C3_exactly_one_outcome_witness :
    (RunServerWithGracefulShutdown cfgForced fullSchedule).result =
        some (some (.other "context deadline exceeded")) ∧
      ((RunServerWithGracefulShutdown cfgForced fullSchedule).eventsOf .caller).countP
        Event.isForced = 1 :=
  ⟨by decide,
    (C3_exactly_one_outcome cfgForced fullSchedule (some (.other "context deadline exceeded"))
      (by decide)).2.2.1.mpr (by decide)⟩

/-- C4: shutdown is only initiated after a termination signal is observed and
runs at most once.  In every run, (1) in every initial segment of the calling
thread's effects that contains no receipt from the signal channel there is no
"Shutting down server..." record, no call of `server.Shutdown` and no return;
(2) under a schedule that delivers no signal the function has not returned and
the calling thread is still at or before line 73; (3) `server.Shutdown` is
called at most once in the whole trace; (4) the lifecycle starts at `Idle`,
every step keeps the phase or advances it by one position, later states are
never in an earlier phase, a terminal phase is never left, and a run that has
returned `r` is in `Stopped` when `r` is `nil` and in `ForcedStopped` otherwise. -/
theorem C4_shutdown_after_signal_once (cfg : Config) (sched : List Action) :
    (∀ k : Nat,
      (∀ e ∈ ((RunServerWithGracefulShutdown cfg sched).eventsOf .caller).take k,
        e.isRecv = false) →
      ∀ e ∈ ((RunServerWithGracefulShutdown cfg sched).eventsOf .caller).take k,
        e.isShutdownInit = false) ∧
    ((∀ a ∈ sched, a.isSignal = false) →
      (RunServerWithGracefulShutdown cfg sched).result = none ∧
      (RunServerWithGracefulShutdown cfg sched).cpc.beforeRecv = true) ∧
    (RunServerWithGracefulShutdown cfg sched).events.countP Event.isShutdownCall ≤ 1 ∧
    (RunServerWithGracefulShutdown cfg []).cpc.phase = .Idle ∧
    (∀ a : Action,
      (RunServerWithGracefulShutdown cfg sched).cpc.phase.rank ≤
        (RunServerWithGracefulShutdown cfg (sched ++ [a])).cpc.phase.rank ∧
      (RunServerWithGracefulShutdown cfg (sched ++ [a])).cpc.phase.rank ≤
        (RunServerWithGracefulShutdown cfg sched).cpc.phase.rank + 1) ∧
    (∀ more : List Action,
      (RunServerWithGracefulShutdown cfg sched).cpc.phase.rank ≤
        (RunServerWithGracefulShutdown cfg (sched ++ more)).cpc.phase.rank ∧
      ((RunServerWithGracefulShutdown cfg sched).cpc.phase = .Stopped →
        (RunServerWithGracefulShutdown cfg (sched ++ more)).cpc.phase = .Stopped) ∧
      ((RunServerWithGracefulShutdown cfg sched).cpc.phase = .ForcedStopped →
        (RunServerWithGracefulShutdown cfg (sched ++ more)).cpc.phase = .ForcedStopped)) ∧
    (∀ r, (RunServerWithGracefulShutdown cfg sched).result = some r →
      (RunServerWithGracefulShutdown cfg sched).cpc.phase =
        if r = none then .Stopped else .ForcedStopped) := by
  have hinv := inv_run cfg sched
  obtain ⟨sig, hc⟩ := hinv.caller
  refine ⟨?_, ?_, ?_, rfl, ?_, ?_, ?_⟩
  · intro k
    rw [hc, callerEvents_eq_take, List.take_take]
    exact script_no_init_before_recv cfg sig _
  · intro hs
    have hb := (blocked_without_signal cfg sched hs State.init rfl rfl).2
    exact ⟨result_none_of_beforeRecv _ hb, hb⟩
  · rw [countP_events, hinv.goroutine, goroutine_no_shutdownCall, hc]
    exact shutdownCall_count cfg sig _
  · intro a
    rw [run_append]
    have h := phase_step cfg (RunServerWithGracefulShutdown cfg sched) a
    exact ⟨h.1, h.2.1⟩
  · intro more
    rw [run_append]
    exact phase_runFrom cfg more _
  · intro r hr
    cases hpc : (RunServerWithGracefulShutdown cfg sched).cpc <;> simp [State.result, hpc] at hr
    subst hr
    rename_i ret
    cases ret <;> simp [CallerPc.phase]

theorem C4_shutdown_after_signal_once_witness :
    (∀ a ∈ scheduleWithoutSignal, a.isSignal = false) ∧
      (RunServerWithGracefulShutdown cfgForced scheduleWithoutSignal).result = none ∧
      (RunServerWithGracefulShutdown cfgForced scheduleWithoutSignal).cpc.beforeRecv = true :=
  ⟨by decide,
    (C4_shutdown_after_signal_once cfgForced scheduleWithoutSignal).2.1 (by decide)⟩

/-- C5: the shutdown deadline is a fixed 5 seconds.  `5 * time.Second` is
5,000,000,000 nanoseconds (within int64); in every run, for every port and
`App`, every call of `context.WithTimeout` is made by the calling thread on the
background context with exactly that duration, and every call of
`server.Shutdown` receives exactly that context; in a run that has returned
`r` (`nil` or an error alike) the calling thread's effects end with the
outcome record, the deferred `cancel()` of that context and the return, and the
whole trace holds exactly one `WithTimeout` and exactly one `cancel()`; both
return paths occur (under `fullSchedule` the function returns what `Shutdown`
returned). -/
theorem C5_fixed_deadline (cfg : Config) (sched : List Action) :
    shutdownTimeout = 5000000000 ∧ shutdownTimeout < 2 ^ 63 ∧
    (∀ t parent d, Event.WithTimeout parent d ∈
        (RunServerWithGracefulShutdown cfg sched).eventsOf t →
      t = .caller ∧ parent = .Background ∧ d = 5000000000) ∧
    (∀ t srv ctx, Event.Shutdown srv ctx ∈ (RunServerWithGracefulShutdown cfg sched).eventsOf t →
      t = .caller ∧ ctx = .WithTimeout .Background 5000000000 ∧
      Event.WithTimeout .Background 5000000000 ∈
        (RunServerWithGracefulShutdown cfg sched).eventsOf .caller) ∧
    (∀ r, (RunServerWithGracefulShutdown cfg sched).result = some r →
      (∃ front, (RunServerWithGracefulShutdown cfg sched).eventsOf .caller =
        front ++ [outcomeRecord cfg r, .Cancel (.WithTimeout .Background 5000000000),
          .Return r]) ∧
      (RunServerWithGracefulShutdown cfg sched).events.countP Event.isWithTimeout = 1 ∧
      (RunServerWithGracefulShutdown cfg sched).events.countP Event.isCancel = 1) ∧
    (RunServerWithGracefulShutdown cfg fullSchedule).result = some cfg.shutdownResult := by
  have hinv := inv_run cfg sched
  obtain ⟨sig, hc⟩ := hinv.caller
  have hd := hinv.callerData
  have hg := hinv.goroutine
  have hto : shutdownTimeout = 5000000000 := by decide
  have hctx : shutdownCtx = .WithTimeout .Background 5000000000 := by
    simp [shutdownCtx, hto]
  have hgor : ∀ e ∈ (RunServerWithGracefulShutdown cfg sched).eventsOf .goroutine,
      e.isWithTimeout = false ∧ e.isShutdownCall = false ∧ e.isCancel = false := by
    intro e he
    rw [hg] at he
    rcases goroutineEvents_mem cfg _ e he with h | h | h
    · simp [goroutineServe] at h
      rcases h with h | h | h <;> subst h <;> exact ⟨rfl, rfl, rfl⟩
    · obtain ⟨err, -, -, h⟩ := failureRecords_mem cfg e h
      subst h
      exact ⟨rfl, rfl, rfl⟩
    · subst h
      exact ⟨rfl, rfl, rfl⟩
  refine ⟨hto, by rw [hto]; norm_num, ?_, ?_, ?_, (fullSchedule_returns cfg).1⟩
  · intro t parent d h
    cases t
    · rw [hc] at h
      have h2 := callerEvents_mem cfg sig _ _ h
      have h5 : (5 : Nat) * Second = 5000000000 := by decide
      have ho := outcomeRecord_flags cfg cfg.shutdownResult
      simp [callerScript, callerSetup, callerShut, h5] at h2
      rcases h2 with h2 | h2
      · exact ⟨rfl, h2.1, h2.2⟩
      · rw [← h2] at ho
        simp [Event.isWithTimeout] at ho
    · have := (hgor _ h).1
      simp [Event.isWithTimeout] at this
  · intro t srv ctx h
    cases t
    · rw [hc] at h ⊢
      have ho := outcomeRecord_not_shutdownCall cfg cfg.shutdownResult
      have h5 : (5 : Nat) * Second = 5000000000 := by decide
      cases hpc : (RunServerWithGracefulShutdown cfg sched).cpc <;> rw [hpc] at h <;>
        simp [callerEvents, callerSetup, callerShut, hctx, h5] at h ⊢ <;>
        first
        | exact ⟨h.2, trivial⟩
        | exact h.2
        | (rcases h with h | h
           · exact h.2
           · rw [← h] at ho; simp [Event.isShutdownCall] at ho)
    · have := (hgor _ h).2.1
      simp [Event.isShutdownCall] at this
  · intro r hr
    have hgw : ((RunServerWithGracefulShutdown cfg sched).eventsOf .goroutine).countP
        Event.isWithTimeout = 0 := by
      rw [List.countP_eq_zero]
      intro e he
      simp [(hgor e he).1]
    have hgc : ((RunServerWithGracefulShutdown cfg sched).eventsOf .goroutine).countP
        Event.isCancel = 0 := by
      rw [List.countP_eq_zero]
      intro e he
      simp [(hgor e he).2.2]
    rw [countP_events, countP_events, hgw, hgc]
    cases hpc : (RunServerWithGracefulShutdown cfg sched).cpc <;> simp [State.result, hpc] at hr
    subst hr
    rw [hpc] at hd hc
    simp only [callerData] at hd
    have ho := outcomeRecord_flags cfg cfg.shutdownResult
    rw [hc]
    refine ⟨⟨callerSetup cfg ++ callerShut cfg sig, ?_⟩, ?_, ?_⟩
    · simp [callerEvents, hd, hctx]
    · simp [callerEvents, callerSetup, callerShut, List.countP_cons, List.countP_append, ho.1]
      simp [Event.isWithTimeout]
    · simp [callerEvents, callerSetup, callerShut, List.countP_cons, List.countP_append, ho.2]
      simp [Event.isCancel]

theorem C5_fixed_deadline_witness :
    (RunServerWithGracefulShutdown cfgForced fullSchedule).result =
        some (some (.other "context deadline exceeded")) ∧
      (RunServerWithGracefulShutdown cfgForced fullSchedule).events.countP Event.isCancel = 1 :=
  ⟨by decide,
    ((C5_fixed_deadline cfgForced fullSchedule).2.2.2.2.1
      (some (.other "context deadline exceeded")) (by decide)).2.2⟩

/-- C6 as stated fails: with a listener that fails to bind, a run that has
returned and whose goroutine has finished has emitted four log records. -/
theorem C6_counterexample :
    (RunServerWithGracefulShutdown cfgBindFails fullSchedule).result = some none ∧
      (RunServerWithGracefulShutdown cfgBindFails fullSchedule).gpc = .finished ∧
      (RunServerWithGracefulShutdown cfgBindFails fullSchedule).logRecords.length = 4 ∧
      (RunServerWithGracefulShutdown cfgBindFails fullSchedule).logRecords.length ≠ 3 := by
  decide

/-- C6, amended: in every run that has returned `r` and whose goroutine has
finished, the goroutine's log records are "Starting server" with the field
`port` equal to the argument, followed by the Error record "Server failed"
exactly when `ListenAndServe` returned an error other than
`http.ErrServerClosed`; the calling thread's log records are "Shutting down
server..." followed by the one outcome record; so the total number of log
records is three when `ListenAndServe` returned `nil` or `http.ErrServerClosed`
and four otherwise. -/
theorem C6_lifecycle_records (cfg : Config) (sched : List Action) (r : Option GoError)
    (hr : (RunServerWithGracefulShutdown cfg sched).result = some r)
    (hfin : (RunServerWithGracefulShutdown cfg sched).gpc = .finished) :
    ((RunServerWithGracefulShutdown cfg sched).eventsOf .goroutine).filter Event.isLog =
        .Log cfg.app.Logger .Info "Starting server" [.Uint16 "port" cfg.port] ::
          failureRecords cfg ∧
    ((RunServerWithGracefulShutdown cfg sched).eventsOf .caller).filter Event.isLog =
        [.Log cfg.app.Logger .Info "Shutting down server..." [], outcomeRecord cfg r] ∧
    ((cfg.serveResult = none ∨ cfg.serveResult = some .ErrServerClosed) →
      failureRecords cfg = [] ∧
      (RunServerWithGracefulShutdown cfg sched).logRecords.length = 3) ∧
    (∀ e, cfg.serveResult = some e → e ≠ .ErrServerClosed →
      failureRecords cfg = [.Log cfg.app.Logger .Error "Server failed" [.Error e]] ∧
      (RunServerWithGracefulShutdown cfg sched).logRecords.length = 4) := by
  have hinv := inv_run cfg sched
  obtain ⟨sig, hc⟩ := hinv.caller
  have hd := hinv.callerData
  have hg := hinv.goroutine
  rw [hfin] at hg
  cases hpc : (RunServerWithGracefulShutdown cfg sched).cpc <;> simp [State.result, hpc] at hr
  subst hr
  rw [hpc] at hd hc
  simp only [callerData] at hd
  have ho := outcomeRecord_isLog cfg cfg.shutdownResult
  have hfl : (failureRecords cfg).filter Event.isLog = failureRecords cfg := by
    rcases failureRecords_cases cfg with h | ⟨e, -, -, h⟩
    · rw [h.1]; rfl
    · rw [h]; rfl
  have hgl : ((RunServerWithGracefulShutdown cfg sched).eventsOf .goroutine).filter Event.isLog =
      .Log cfg.app.Logger .Info "Starting server" [.Uint16 "port" cfg.port] ::
        failureRecords cfg := by
    rw [hg]
    simp [goroutineEvents, goroutineServe, List.filter_cons, List.filter_append, hfl,
      Event.isLog]
  have hcl : ((RunServerWithGracefulShutdown cfg sched).eventsOf .caller).filter Event.isLog =
      [.Log cfg.app.Logger .Info "Shutting down server..." [],
        outcomeRecord cfg cfg.shutdownResult] := by
    rw [hc]
    simp [callerEvents, callerSetup, callerShut, List.filter_cons, List.filter_append, ho]
    simp [Event.isLog]
  have hlen : (RunServerWithGracefulShutdown cfg sched).logRecords.length =
      3 + (failureRecords cfg).length := by
    rw [logRecords_length, List.countP_eq_length_filter, List.countP_eq_length_filter, hgl, hcl]
    simp
    omega
  refine ⟨hgl, by rw [hcl, hd], ?_, ?_⟩
  · intro h
    rcases failureRecords_cases cfg with h2 | ⟨e, h2, h3, -⟩
    · exact ⟨h2.1, by rw [hlen, h2.1]; rfl⟩
    · rcases h with h | h <;> rw [h2] at h <;> simp at h
      exact absurd h h3
  · intro e h1 h2
    rcases failureRecords_cases cfg with h3 | ⟨e2, h3, -, h4⟩
    · rcases h3.2 with h | h <;> rw [h1] at h <;> simp at h
      exact absurd h h2
    · rw [h1] at h3
      cases h3
      exact ⟨h4, by rw [hlen, h4]; rfl⟩

theorem C6_lifecycle_records_witness :
    (RunServerWithGracefulShutdown cfgForced fullSchedule).result =
        some (some (.other "context deadline exceeded")) ∧
      (RunServerWithGracefulShutdown cfgForced fullSchedule).gpc = .finished ∧
      (RunServerWithGracefulShutdown cfgForced fullSchedule).logRecords.length = 3 :=
  ⟨by decide, by decide,
    ((C6_lifecycle_records cfgForced fullSchedule (some (.other "context deadline exceeded"))
      (by decide) (by decide)).2.2.1 (Or.inr rfl)).2⟩

/-- C7: when `InitLogger` succeeds, `InitApp` returns an `App` whose router and
registry are freshly created objects (not any that existed before, such as the
default registry, which are left untouched); the router has exactly one
registered route, `GET /metrics`, whose handler serves the registry that is
`App.PromRegistry`; that registry has exactly the Go runtime collector and the
process collector; so `GET /metrics` is answered from those two collectors and
no other method or path has a registered route. -/
theorem C7_metrics_endpoint (logger : LoggerRef) (w : World) :
    ∃ app : App, (InitApp (.ok logger) w).2.2 = .returned app ∧
      app.Router = w.routers.length ∧ app.PromRegistry = w.registries.length ∧
      (InitApp (.ok logger) w).1.routers.get? app.Router =
        some [⟨"GET", "/metrics", .PromHandlerFor app.PromRegistry⟩] ∧
      (InitApp (.ok logger) w).1.registries.get? app.PromRegistry =
        some [.GoCollector, .ProcessCollector] ∧
      (∀ i, i < w.registries.length →
        (InitApp (.ok logger) w).1.registries.get? i = w.registries.get? i) ∧
      (InitApp (.ok logger) w).1.serve app.Router "GET" "/metrics" =
        some [.GoCollector, .ProcessCollector] ∧
      (∀ m p, ¬ (m = "GET" ∧ p = "/metrics") →
        (InitApp (.ok logger) w).1.serve app.Router m p = none) := by
  refine ⟨⟨logger, w.routers.length, w.registries.length⟩, ?_⟩
  rw [InitApp_ok]
  refine ⟨rfl, rfl, rfl, ?_, ?_, ?_, ?_, ?_⟩
  · simp
  · simp
  · intro i hi
    simp [List.getElem?_append_left hi]
  · simp [World.serve, World.lookup, World.gatherFrom, List.getD_eq_getElem?_getD]
  · intro m p hmp
    simp [World.serve, World.lookup, List.getD_eq_getElem?_getD]
    intro h1 h2
    exact hmp ⟨h1.symm, h2.symm⟩

theorem C7_metrics_endpoint_witness :
    (InitApp (.ok 7) worldWithDefaults).2.2 = .returned ⟨7, 1, 1⟩ ∧
      (InitApp (.ok 7) worldWithDefaults).1.serve 1 "GET" "/metrics" =
        some [.GoCollector, .ProcessCollector] ∧
      ∃ app : App, (InitApp (.ok 7) worldWithDefaults).2.2 = .returned app ∧
        app.Router = 1 ∧ app.PromRegistry = 1 :=
  ⟨by decide, by decide,
    (C7_metrics_endpoint 7 worldWithDefaults).imp fun _ h => ⟨h.1, h.2.1, h.2.2.1⟩⟩

/-- C9: in the goroutine of `RunServerWithGracefulShutdown`, every record at
error severity is the record "Server failed" carrying the error
`ListenAndServe` returned, and that error is neither `nil` nor
`http.ErrServerClosed`; at most one record at error severity is ever logged;
once the goroutine has finished its effects are "Starting server", the one
call of `ListenAndServe`, its return, the "Server failed" record if and only
if the returned error is non-nil and not `http.ErrServerClosed`, and the end;
`ListenAndServe` is called at most once in the whole run (no retry); and once
`ListenAndServe` has returned, three more statements of the goroutine end it. -/
theorem C9_server_failed_record (cfg : Config) (sched : List Action) :
    (∀ lg msg fields, Event.Log lg .Error msg fields ∈
        (RunServerWithGracefulShutdown cfg sched).eventsOf .goroutine →
      ∃ e, cfg.serveResult = some e ∧ e ≠ .ErrServerClosed ∧ lg = cfg.app.Logger ∧
        msg = "Server failed" ∧ fields = [.Error e]) ∧
    ((RunServerWithGracefulShutdown cfg sched).eventsOf .goroutine).countP
        Event.isErrorRecord ≤ 1 ∧
    ((RunServerWithGracefulShutdown cfg sched).gpc = .finished →
      (RunServerWithGracefulShutdown cfg sched).eventsOf .goroutine =
        [.Log cfg.app.Logger .Info "Starting server" [.Uint16 "port" cfg.port],
          .ListenAndServe cfg.server, .Served cfg.serveResult] ++
          failureRecords cfg ++ [.GoroutineEnd] ∧
      (∀ e, Event.Log cfg.app.Logger .Error "Server failed" [.Error e] ∈
          (RunServerWithGracefulShutdown cfg sched).eventsOf .goroutine ↔
        (cfg.serveResult = some e ∧ e ≠ .ErrServerClosed)) ∧
      ((cfg.serveResult = none ∨ cfg.serveResult = some .ErrServerClosed) →
        ((RunServerWithGracefulShutdown cfg sched).eventsOf .goroutine).countP
          Event.isErrorRecord = 0)) ∧
    (RunServerWithGracefulShutdown cfg sched).events.countP Event.isListenAndServe ≤ 1 ∧
    (∀ r, Event.Served r ∈ (RunServerWithGracefulShutdown cfg sched).eventsOf .goroutine →
      r = cfg.serveResult ∧
      (RunServerWithGracefulShutdown cfg (sched ++ List.replicate 3 .goroutine)).gpc =
        .finished) := by
  have hinv := inv_run cfg sched
  obtain ⟨sig, hc⟩ := hinv.caller
  have hg := hinv.goroutine
  have herr : ∀ lg msg fields, Event.Log lg .Error msg fields ∈
      (RunServerWithGracefulShutdown cfg sched).eventsOf .goroutine →
      ∃ e, cfg.serveResult = some e ∧ e ≠ .ErrServerClosed ∧ lg = cfg.app.Logger ∧
        msg = "Server failed" ∧ fields = [.Error e] := by
    intro lg msg fields h
    rw [hg] at h
    rcases goroutineEvents_mem cfg _ _ h with h | h | h
    · simp [goroutineServe] at h
    · obtain ⟨err, h1, h2, h3⟩ := failureRecords_mem cfg _ h
      simp only [Event.Log.injEq] at h3
      exact ⟨err, h1, h2, h3.1, h3.2.2.1, h3.2.2.2⟩
    · simp at h
  have hcnt : ∀ pc, (goroutineEvents cfg pc).countP Event.isErrorRecord =
      if pc = .ending ∨ pc = .finished then (failureRecords cfg).countP Event.isErrorRecord
      else 0 := by
    intro pc
    cases pc <;>
      simp [goroutineEvents, goroutineServe, List.countP_cons, List.countP_append,
        Event.isErrorRecord]
  refine ⟨herr, ?_, ?_, ?_, ?_⟩
  · rw [hg, hcnt]
    split
    · exact failureRecords_count cfg _
    · exact Nat.zero_le _
  · intro hfin
    rw [hfin] at hg
    refine ⟨by rw [hg]; simp [goroutineEvents, goroutineServe], ?_, ?_⟩
    · intro e
      constructor
      · intro h
        obtain ⟨e2, h1, h2, -, -, h3⟩ := herr _ _ _ h
        simp only [List.cons.injEq, Field.Error.injEq, and_true] at h3
        subst h3
        exact ⟨h1, h2⟩
      · rintro ⟨h1, h2⟩
        rw [hg]
        rcases failureRecords_cases cfg with h | ⟨e2, h3, -, h4⟩
        · rcases h.2 with h | h <;> rw [h1] at h <;> simp at h
          exact absurd h h2
        · rw [h1] at h3
          cases h3
          simp [goroutineEvents, h4]
    · intro h
      rw [hg, hcnt]
      rcases failureRecords_cases cfg with h2 | ⟨e2, h3, h4, -⟩
      · simp [h2.1]
      · rcases h with h | h <;> rw [h3] at h <;> simp at h
        exact absurd h h4
  · rw [countP_events, hc, caller_no_listenAndServe, hg]
    have hf : (failureRecords cfg).countP Event.isListenAndServe = 0 := by
      rcases failureRecords_cases cfg with h | ⟨e, -, -, h⟩
      · rw [h.1]; rfl
      · rw [h]; rfl
    cases (RunServerWithGracefulShutdown cfg sched).gpc <;>
      simp [goroutineEvents, goroutineServe, List.countP_cons, List.countP_append, hf,
        Event.isListenAndServe]
  · intro r hr
    rw [hg] at hr
    refine ⟨?_, ?_⟩
    · rcases goroutineEvents_mem cfg _ _ hr with h | h | h
      · simpa [goroutineServe] using h
      · obtain ⟨err, -, -, h3⟩ := failureRecords_mem cfg _ h
        simp at h3
      · simp at h
    · rw [run_append]
      exact goroutine_completes cfg _ (served_mem_goroutineEvents cfg r _ hr)

theorem C9_server_failed_record_witness :
    (RunServerWithGracefulShutdown cfgBindFails fullSchedule).gpc = .finished ∧
      Event.Log 1 .Error "Server failed"
          [.Error (.other "listen tcp :8080: bind: address already in use")] ∈
        (RunServerWithGracefulShutdown cfgBindFails fullSchedule).eventsOf .goroutine :=
  ⟨by decide,
    (((C9_server_failed_record cfgBindFails fullSchedule).2.2.1 (by decide)).2.1
      (.other "listen tcp :8080: bind: address already in use")).mpr ⟨rfl, by decide⟩⟩

/-- C8: for every `port` of type `uint16` (0 included, which is not rejected),
the server's `Handler` is `app.Router` and its `Addr` is `":"` followed by the
decimal numeral of `port`: at least one and at most five characters, all
digits (so no sign), with no leading zero except for the numeral `0` itself,
that read back as `port`.  In every run the server constructed, the server
`ListenAndServe` is called on and the server `Shutdown` is called on are that
server; and under `fullSchedule` the goroutine does call `ListenAndServe` on it. -/
theorem C8_server_addr_and_handler (cfg : Config) (sched : List Action)
    (hport : cfg.port < 65536) :
    cfg.server.Handler = cfg.app.Router ∧
    cfg.server.Addr.data = ':' :: fmtUint cfg.port ∧
    fmtUint cfg.port ≠ [] ∧ (fmtUint cfg.port).length ≤ 5 ∧
    (∀ c ∈ fmtUint cfg.port, isDigitChar c) ∧
    ((fmtUint cfg.port).head? = some '0' → fmtUint cfg.port = ['0'] ∧ cfg.port = 0) ∧
    parseNat cfg.server.Addr.data.tail = some cfg.port ∧
    (∀ t srv, Event.NewServer srv ∈ (RunServerWithGracefulShutdown cfg sched).eventsOf t →
      srv = cfg.server) ∧
    (∀ t srv, Event.ListenAndServe srv ∈ (RunServerWithGracefulShutdown cfg sched).eventsOf t →
      srv = cfg.server) ∧
    (∀ t srv ctx, Event.Shutdown srv ctx ∈ (RunServerWithGracefulShutdown cfg sched).eventsOf t →
      srv = cfg.server) ∧
    Event.ListenAndServe cfg.server ∈
      (RunServerWithGracefulShutdown cfg fullSchedule).eventsOf .goroutine := by
  obtain ⟨h1, h2, h3, h4⟩ := fmtUintAux_spec cfg.port cfg.port (le_refl _)
  have hlen := fmtUintAux_length cfg.port cfg.port 4 (le_refl _) (by norm_num; omega)
  have hinv := inv_run cfg sched
  obtain ⟨sig, hc⟩ := hinv.caller
  have hg := hinv.goroutine
  have hall : ∀ t e, e ∈ (RunServerWithGracefulShutdown cfg sched).eventsOf t →
      e ∈ callerScript cfg sig ∨ e ∈ goroutineServe cfg ∨ e ∈ failureRecords cfg ∨
        e = .GoroutineEnd := by
    intro t e he
    cases t
    · rw [hc] at he
      exact Or.inl (callerEvents_mem cfg sig _ _ he)
    · rw [hg] at he
      exact Or.inr (goroutineEvents_mem cfg _ _ he)
  have hscript : ∀ e ∈ callerScript cfg sig,
      e = .NewServer cfg.server ∨ e = .Shutdown cfg.server shutdownCtx ∨
        (e.isLog = true ∨ (∀ srv, e ≠ .NewServer srv ∧ e ≠ .ListenAndServe srv ∧
          ∀ ctx, e ≠ .Shutdown srv ctx)) := by
    intro e he
    simp [callerScript, callerSetup, callerShut] at he
    rcases he with h | h | h | h | h | h | h | h | h | h | h <;> subst h <;>
      first
      | (simp [Event.isLog]; done)
      | exact Or.inr (Or.inr (Or.inl (outcomeRecord_isLog _ _)))
  refine ⟨rfl, rfl, h1, hlen, h2, h4, h3, ?_, ?_, ?_, ?_⟩
  · intro t srv he
    rcases hall t _ he with h | h | h | h
    · rcases hscript _ h with h | h | h | h
      · cases h; rfl
      · cases h
      · simp [Event.isLog] at h
      · exact absurd rfl (h srv).1
    · simp [goroutineServe] at h
    · obtain ⟨err, -, -, h⟩ := failureRecords_mem cfg _ h
      cases h
    · cases h
  · intro t srv he
    rcases hall t _ he with h | h | h | h
    · rcases hscript _ h with h | h | h | h
      · cases h
      · cases h
      · simp [Event.isLog] at h
      · exact absurd rfl (h srv).2.1
    · simp [goroutineServe] at h
      exact h
    · obtain ⟨err, -, -, h⟩ := failureRecords_mem cfg _ h
      cases h
    · cases h
  · intro t srv ctx he
    rcases hall t _ he with h | h | h | h
    · rcases hscript _ h with h | h | h | h
      · cases h
      · cases h; rfl
      · simp [Event.isLog] at h
      · exact absurd rfl ((h srv).2.2 ctx)
    · simp [goroutineServe] at h
    · obtain ⟨err, -, -, h⟩ := failureRecords_mem cfg _ h
      cases h
    · cases h
  · rw [(inv_run cfg fullSchedule).goroutine, (fullSchedule_returns cfg).2]
    simp [goroutineEvents, goroutineServe]

theorem C8_server_addr_and_handler_witness :
    cfgPortZero.port < 65536 ∧ cfgPortZero.server.Addr = ":0" ∧
      parseNat cfgPortZero.server.Addr.data.tail = some 0 ∧
      Event.ListenAndServe ⟨":0", 2⟩ ∈
        (RunServerWithGracefulShutdown cfgPortZero fullSchedule).eventsOf .goroutine :=
  ⟨by decide, by decide,
    (C8_server_addr_and_handler cfgPortZero [] (by decide)).2.2.2.2.2.2.1,
    (C8_server_addr_and_handler cfgPortZero [] (by decide)).2.2.2.2.2.2.2.2.2.2⟩

/-- C10: the logger is flushed only inside `InitApp`.  When `InitLogger` succeeds,
the effects of `InitApp` hold exactly one call of `logger.Sync()`, it is the last
effect before the return, it is made on the logger returned in
`App.Logger`, and `InitApp` writes no log record through it; and in every run of `RunServerWithGracefulShutdown`, under every
schedule and for every result of `ListenAndServe` and `Shutdown`, neither thread
calls `Sync`. -/
theorem C10_sync_only_in_InitApp (logger : LoggerRef) (w : World) (cfg : Config)
    (sched : List Action) :
    (∃ (app : App) (front : List Event),
      (InitApp (.ok logger) w).2.2 = .returned app ∧ app.Logger = logger ∧
      (InitApp (.ok logger) w).2.1 = front ++ [.Sync app.Logger, .ReturnApp app] ∧
      (∀ e ∈ front, e.isSync = false) ∧
      (InitApp (.ok logger) w).2.1.countP Event.isSync = 1 ∧
      (InitApp (.ok logger) w).2.1.countP Event.isLog = 0) ∧
    (∀ e ∈ (RunServerWithGracefulShutdown cfg sched).events, e.isSync = false) ∧
    (RunServerWithGracefulShutdown cfg sched).events.countP Event.isSync = 0 := by
  have hrun : ∀ e ∈ (RunServerWithGracefulShutdown cfg sched).events, e.isSync = false := by
    intro e he
    simp only [State.events, List.mem_map] at he
    obtain ⟨⟨t, e2⟩, hm, rfl⟩ := he
    have hmem := (mem_eventsOf _ t e2).mpr hm
    have hinv := inv_run cfg sched
    cases t
    · obtain ⟨sig, hc⟩ := hinv.caller
      rw [hc] at hmem
      have h2 := callerEvents_mem cfg sig _ _ hmem
      simp [callerScript, callerSetup, callerShut] at h2
      rcases h2 with h | h | h | h | h | h | h | h | h | h | h <;> subst h <;>
        first
        | rfl
        | (cases cfg.shutdownResult <;> rfl)
    · rw [hinv.goroutine] at hmem
      rcases goroutineEvents_mem cfg _ _ hmem with h | h | h
      · simp [goroutineServe] at h
        rcases h with h | h | h <;> subst h <;> rfl
      · obtain ⟨err, -, -, h⟩ := failureRecords_mem cfg _ h
        subst h
        rfl
      · subst h
        rfl
  refine ⟨⟨⟨logger, w.routers.length, w.registries.length⟩,
    [Event.InitLogger, .NewRegistry w.registries.length,
      .MustRegister w.registries.length .GoCollector,
      .MustRegister w.registries.length .ProcessCollector,
      .NewRouter w.routers.length,
      .RouterHandler w.routers.length "GET" "/metrics" (.PromHandlerFor w.registries.length)],
    ?_, rfl, ?_, ?_, ?_, ?_⟩, hrun, ?_⟩
  · rw [InitApp_ok]
  · rw [InitApp_ok]
    rfl
  · intro e he
    simp at he
    rcases he with h | h | h | h | h | h <;> subst h <;> rfl
  · rw [InitApp_ok]
    simp [List.countP_cons, Event.isSync]
  · rw [InitApp_ok]
    simp [List.countP_cons, Event.isLog]
  · rw [List.countP_eq_zero]
    intro e he
    simp [hrun e he]

end Axon
